import Mathlib

/-!
# Verification of the `ak-data` assembly core

Shallow embedding of the `ak-data` Rust library (game-data assembly for
Arknights) and proofs about it.  Rust `u32`/`u8` fields are modelled as `Nat`
(no arithmetic in the embedded code can overflow 32 bits on the inputs the
claims range over), `i8`/`i32` as `Int`, timestamps (`DateTime<Utc>`, a totally
ordered instant) as `Int` (unix seconds, as in the serde attributes), `f32` as
`ℚ` (exact-real model of the float arithmetic; the claims quantify over values
where `f32` and exact arithmetic agree, and divergences are noted where they
exist), `HashMap`/`BTreeMap` as association lists (`List (key × value)`), and
fallible Rust code (`Option`-returning functions, `?`) as `Option`.
-/

namespace AkData

/-! ## Numeric helpers (`game_data.rs`)

`lerp_f32`/`lerp_u32` from `src/game_data.rs` lines 388-396.  Rust
`f32::round` rounds half away from zero, and `as u32` of a negative float
saturates to `0`; both are mirrored below (`Int.toNat` clamps negatives to 0;
the saturation at `u32::MAX` cannot trigger on in-range game data and is not
modelled). -/

/-- `f32::round`: nearest integer, ties away from zero. -/
def roundTiesAway (x : ℚ) : ℤ :=
  if 0 ≤ x then ⌊x + 1 / 2⌋ else -⌊-x + 1 / 2⌋

/-- `fn lerp_f32(min: f32, max: f32, t: f32) -> f32 { min + (max - min) * t }` -/
def lerp_f32 (min max t : ℚ) : ℚ :=
  min + (max - min) * t

/-- `fn lerp_u32(min: u32, max: u32, t: f32) -> u32` :
`lerp_f32(min as f32, max as f32, t).round() as u32`. -/
def lerp_u32 (min max : ℕ) (t : ℚ) : ℕ :=
  (roundTiesAway (lerp_f32 min max t)).toNat

/-- `u32::clamp(self, lo, hi)` (the code only calls it with `lo ≤ hi`;
Rust panics otherwise). -/
def clampNat (x lo hi : ℕ) : ℕ :=
  max lo (min x hi)

/-! ## Attribute records (`game_data.rs`) -/

/-- `OperatorPromotionAttributes` (`game_data.rs` lines 324-346). -/
structure OperatorPromotionAttributes where
  level : ℕ
  max_hp : ℕ
  atk : ℕ
  def_ : ℕ
  magic_resistance : ℚ
  deployment_cost : ℕ
  block_count : ℕ
  move_speed : ℚ
  attack_speed : ℚ
  base_attack_time : ℚ
  redeploy_time : ℕ
  hp_recovery_per_sec : ℚ
  sp_recovery_per_sec : ℚ
  max_deploy_count : ℕ
  max_deck_stack_count : ℕ
  taunt_level : ℤ
  is_stun_immune : Bool
  is_silence_immune : Bool
  is_sleep_immune : Bool
  is_frozen_immune : Bool
  deriving DecidableEq

/-- `OperatorTrustAttributes` (`game_data.rs` lines 361-367). -/
structure OperatorTrustAttributes where
  max_hp : ℕ
  atk : ℕ
  def_ : ℕ
  deriving DecidableEq

/-- `impl Default for OperatorTrustAttributes`: the all-zero bonus. -/
def OperatorTrustAttributes.default : OperatorTrustAttributes :=
  { max_hp := 0, atk := 0, def_ := 0 }

/-- `impl Add<OperatorTrustAttributes> for OperatorPromotionAttributes`
(`game_data.rs` lines 348-359): adds the three bonus fields, keeps the rest. -/
def OperatorPromotionAttributes.addTrust (a : OperatorPromotionAttributes)
    (t : OperatorTrustAttributes) : OperatorPromotionAttributes :=
  { a with
    max_hp := a.max_hp + t.max_hp
    atk := a.atk + t.atk
    def_ := a.def_ + t.def_ }

/-- `OperatorTrustAttributes::get_trust_level_attributes`
(`game_data.rs` lines 369-380): `t = trust.min(200) as f32 / 200.0`, each field
`lerp_u32(0, field, t)`. -/
def OperatorTrustAttributes.get_trust_level_attributes
    (a : OperatorTrustAttributes) (trust : ℕ) : OperatorTrustAttributes :=
  let t : ℚ := ((min trust 200 : ℕ) : ℚ) / 200
  { max_hp := lerp_u32 0 a.max_hp t
    atk := lerp_u32 0 a.atk t
    def_ := lerp_u32 0 a.def_ t }

/-! ## Promotions (`game_data.rs`) -/

/-- `Promotion` (`game_data.rs` lines 689-698). -/
inductive Promotion where
  | none
  | elite1
  | elite2
  deriving DecidableEq

/-- `PromotionAndLevel` (`game_data.rs` lines 667-671). -/
structure PromotionAndLevel where
  promotion : Promotion
  level : ℕ
  deriving DecidableEq

/-- `ItemsCost = Map<String, u32>` — a `BTreeMap` modelled as an association
list (no claim depends on its iteration order). -/
abbrev ItemsCost := List (String × ℕ)

/-- `OperatorPromotion` (`game_data.rs` lines 262-276), with the fields the
`format/character_table.rs` snapshot constructs (that snapshot of the domain
type has no `skin_id`). -/
structure OperatorPromotion where
  attack_range_id : Option String
  min_attributes : OperatorPromotionAttributes
  max_attributes : OperatorPromotionAttributes
  max_level : ℕ
  upgrade_cost : ItemsCost
  deriving DecidableEq

/-- `OperatorPromotion::level_t` (`game_data.rs` lines 307-313): clamp the
level into `[min.level, max.level]` and normalise.  (`ℚ` division by zero is 0;
in Rust `min.level = max.level` makes this a `0.0/0.0 = NaN` — the claims about
this function assume `min.level < max.level`, where the models agree.) -/
def OperatorPromotion.level_t (p : OperatorPromotion) (level : ℕ) : ℚ :=
  let min := p.min_attributes.level
  let max := p.max_attributes.level
  let level : ℚ := (clampNat level min max : ℕ)
  (level - min) / (max - min)

/-- `OperatorPromotion::lerp_attribute_u32` (`game_data.rs` lines 315-321). -/
def OperatorPromotion.lerp_attribute_u32 (p : OperatorPromotion) (level : ℕ)
    (f : OperatorPromotionAttributes → ℕ) : ℕ :=
  lerp_u32 (f p.min_attributes) (f p.max_attributes) (p.level_t level)

/-- `OperatorPromotion::get_level_attributes` (`game_data.rs` lines 295-305):
interpolate `max_hp`, `atk`, `def`, set `level`, copy everything else from the
min keyframe (`..self.min_attributes`). -/
def OperatorPromotion.get_level_attributes (p : OperatorPromotion) (level : ℕ) :
    OperatorPromotionAttributes :=
  { p.min_attributes with
    level := level
    max_hp := p.lerp_attribute_u32 level (·.max_hp)
    atk := p.lerp_attribute_u32 level (·.atk)
    def_ := p.lerp_attribute_u32 level (·.def_) }

/-! ## Events and banners (`game_data.rs`, `format/activity_table.rs`,
`format/gacha_table.rs`)

`DateTime<Utc>` is a totally ordered instant; modelled as `Int` (unix
seconds, which is what the serde `ts_seconds` attribute decodes). -/

/-- `EventType` (`game_data.rs` lines 925-935). -/
inductive EventType where
  | intermezzi
  | sideStory
  | vignette
  deriving DecidableEq

/-- `Event` (`game_data.rs` lines 886-899). -/
structure Event where
  id : String
  name : String
  event_type : EventType
  open_time : ℤ
  close_time : ℤ
  close_time_rewards : ℤ
  is_rerun : Bool
  deriving DecidableEq

/-- `Event::is_past` (`game_data.rs` line 903): `now >= self.close_time_rewards`. -/
def Event.is_past (e : Event) (now : ℤ) : Bool :=
  e.close_time_rewards ≤ now

/-- `Event::is_current_playable` (`game_data.rs` line 908). -/
def Event.is_current_playable (e : Event) (now : ℤ) : Bool :=
  e.open_time ≤ now && now < e.close_time

/-- `Event::is_current` (`game_data.rs` line 914). -/
def Event.is_current (e : Event) (now : ℤ) : Bool :=
  e.open_time ≤ now && now < e.close_time_rewards

/-- `Event::is_future` (`game_data.rs` line 919): `self.open_time > now`. -/
def Event.is_future (e : Event) (now : ℤ) : Bool :=
  now < e.open_time

/-- `HeadhuntingBannerType` (`game_data.rs` lines 979-990). -/
inductive HeadhuntingBannerType where
  | normal
  | limited
  | special
  deriving DecidableEq

/-- `HeadhuntingBanner` (`game_data.rs` lines 938-954). -/
structure HeadhuntingBanner where
  id : String
  name : String
  summary : String
  index : ℕ
  open_time : ℤ
  close_time : ℤ
  item_id : Option String
  banner_type : HeadhuntingBannerType
  deriving DecidableEq

/-- `HeadhuntingBanner::is_past` (`game_data.rs` line 958). -/
def HeadhuntingBanner.is_past (b : HeadhuntingBanner) (now : ℤ) : Bool :=
  b.close_time ≤ now

/-- `HeadhuntingBanner::is_current` (`game_data.rs` line 963). -/
def HeadhuntingBanner.is_current (b : HeadhuntingBanner) (now : ℤ) : Bool :=
  b.open_time ≤ now && now < b.close_time

/-- `HeadhuntingBanner::is_future` (`game_data.rs` line 968). -/
def HeadhuntingBanner.is_future (b : HeadhuntingBanner) (now : ℤ) : Bool :=
  now < b.open_time

/-- `ActivityTableBasicInfoKind` (`format/activity_table.rs` lines 58-69). -/
inductive ActivityTableBasicInfoKind where
  | branchline
  | sideStory
  | miniStory
  deriving DecidableEq

/-- `ActivityTableBasicInfoKind::into_event_type`
(`format/activity_table.rs` lines 71-79). -/
def ActivityTableBasicInfoKind.into_event_type :
    ActivityTableBasicInfoKind → EventType
  | .branchline => .intermezzi
  | .sideStory => .sideStory
  | .miniStory => .vignette

/-- `ActivityTableBasicInfoEntry` (`format/activity_table.rs` lines 25-42). -/
structure ActivityTableBasicInfoEntry where
  id : String
  kind : Option ActivityTableBasicInfoKind
  name : String
  start_time : ℤ
  end_time : ℤ
  end_time_rewards : ℤ
  is_rerun : Bool
  deriving DecidableEq

/-- `ActivityTableBasicInfoEntry::into_event`
(`format/activity_table.rs` lines 44-56): `None` when `kind` is absent. -/
def ActivityTableBasicInfoEntry.into_event (e : ActivityTableBasicInfoEntry) :
    Option Event :=
  e.kind.map fun kind =>
    { id := e.id
      name := e.name
      event_type := kind.into_event_type
      open_time := e.start_time
      close_time := e.end_time
      close_time_rewards := e.end_time_rewards
      is_rerun := e.is_rerun }

/-- `ActivityTable` (`format/activity_table.rs` lines 13-17): the `basicInfo`
map, modelled as an association list. -/
structure ActivityTable where
  basic_info : List (String × ActivityTableBasicInfoEntry)

/-- `ActivityTable::into_events` (`format/activity_table.rs` lines 19-23):
`recollect_filter` over the map entries. -/
def ActivityTable.into_events (t : ActivityTable) : List Event :=
  t.basic_info.filterMap fun p => p.2.into_event

/-- `GachaTableGachaRuleType` (`format/gacha_table.rs` lines 82-93). -/
inductive GachaTableGachaRuleType where
  | normal
  | limited
  | linkage
  | attain
  deriving DecidableEq

/-- `GachaTableGachaRuleType::into_headhunting_banner_type`
(`format/gacha_table.rs` lines 95-104). -/
def GachaTableGachaRuleType.into_headhunting_banner_type :
    GachaTableGachaRuleType → HeadhuntingBannerType
  | .normal => .normal
  | .limited => .limited
  | .linkage => .special
  | .attain => .special

/-- `GachaTableGachaPool` (`format/gacha_table.rs` lines 45-65). -/
structure GachaTableGachaPool where
  gacha_pool_id : String
  gacha_index : ℕ
  open_time : ℤ
  end_time : ℤ
  gacha_pool_name : String
  gacha_pool_summary : String
  data_contract_item_id : Option String
  gacha_rule_type : GachaTableGachaRuleType
  deriving DecidableEq

/-- `GachaTableGachaPool::into_headhunting_banner`
(`format/gacha_table.rs` lines 67-80). -/
def GachaTableGachaPool.into_headhunting_banner (p : GachaTableGachaPool) :
    HeadhuntingBanner :=
  { id := p.gacha_pool_id
    name := p.gacha_pool_name
    summary := p.gacha_pool_summary
    index := p.gacha_index
    open_time := p.open_time
    close_time := p.end_time
    item_id := p.data_contract_item_id
    banner_type := p.gacha_rule_type.into_headhunting_banner_type }

/-- Ordering of banners used by the assembly: ascending open time. -/
def bannerLE (a b : HeadhuntingBanner) : Prop :=
  a.open_time ≤ b.open_time

/-- Ordering of events used by the assembly: ascending open time. -/
def eventLE (a b : Event) : Prop :=
  a.open_time ≤ b.open_time

instance : DecidableRel bannerLE := fun a b => by
  unfold bannerLE; infer_instance

instance : DecidableRel eventLE := fun a b => by
  unfold eventLE; infer_instance

instance : IsTotal HeadhuntingBanner bannerLE :=
  ⟨fun a b => Int.le_total a.open_time b.open_time⟩

instance : IsTrans HeadhuntingBanner bannerLE :=
  ⟨fun _ _ _ h h' => le_trans h h'⟩

instance : IsTotal Event eventLE :=
  ⟨fun a b => Int.le_total a.open_time b.open_time⟩

instance : IsTrans Event eventLE :=
  ⟨fun _ _ _ h h' => le_trans h h'⟩

/-- Modelled from the spec: the assembly glue of the snapshot that fills
`GameData.headhunting_banners` (the `DataFiles::into_game_data` version that
consumes `GachaTable::into_gacha`) is not present under `src/`; per the spec's
ordering contract the collected banners are "sorted ascending by open time".
We model the glue as sorting the banners obtained from the gacha pools. -/
def assembleHeadhuntingBanners (pools : List GachaTableGachaPool) :
    List HeadhuntingBanner :=
  List.insertionSort bannerLE
    (pools.map GachaTableGachaPool.into_headhunting_banner)

/-- Modelled from the spec: the assembly glue of the snapshot that fills
`GameData.events` (the caller of `ActivityTable::into_events`) is not present
under `src/`; per the spec's ordering contract the events are "sorted
ascending by open time".  We model the glue as sorting the output of
`into_events`. -/
def assembleEvents (t : ActivityTable) : List Event :=
  List.insertionSort eventLE t.into_events

/-! ## Template engine (`format.rs` lines 1437-1511)

`RX_TAG = <[@$\w.]+>|</>` and `RX_TEMPLATE = \{[\w:.%\-@\[\]]+\}` with
`Regex::replace_all`.  The rust `regex` crate scans left to right for the
leftmost match; since `>` (resp. `}`) is not in the repeated character class,
greediness never backtracks: a match at a position is exactly "opening
bracket, a maximal nonempty run of class characters, the closing bracket".
`\w` is modelled at the ASCII level (`[0-9A-Za-z_]`), which covers every
string the theorems below touch. -/

/-- A character matched by `[@$\w.]` in `RX_TAG` (ASCII `\w`). -/
def tagChar (c : Char) : Bool :=
  c = '@' || c = '$' || c = '.' || c.isAlphanum || c = '_'

/-- Length of the `RX_TAG` match starting at the head of `cs`, if any:
either the fixed closing token `</>` or `<`, a nonempty run of `tagChar`s,
`>`. -/
def tagMatchLen (cs : List Char) : Option ℕ :=
  match cs with
  | '<' :: '/' :: '>' :: _ => some 3
  | '<' :: rest =>
    let run := rest.takeWhile tagChar
    match run, rest.drop run.length with
    | _ :: _, '>' :: _ => some (run.length + 2)
    | _, _ => none
  | _ => none

/-- `Regex::replace_all(RX_TAG, "")` as a left-to-right scan.  The fuel
argument only bounds recursion depth; each step consumes at least one
character, so `fuel = cs.length` always suffices (see `stripTagsAux`). -/
def stripTagsFuel : ℕ → List Char → List Char
  | 0, cs => cs
  | _ + 1, [] => []
  | fuel + 1, c :: cs =>
    match tagMatchLen (c :: cs) with
    | some n => stripTagsFuel fuel ((c :: cs).drop n)
    | none => c :: stripTagsFuel fuel cs

def stripTagsAux (cs : List Char) : List Char :=
  stripTagsFuel cs.length cs

/-- `fn strip_tags(text: &str) -> Cow<str>` (`format.rs` lines 1440-1442). -/
def strip_tags (s : String) : String :=
  ⟨stripTagsAux s.data⟩

/-- Whether `RX_TAG` matches anywhere in `cs` (i.e. `strip_tags` would
remove something). -/
def hasTagMatch : List Char → Bool
  | [] => false
  | c :: cs => (tagMatchLen (c :: cs)).isSome || hasTagMatch cs

/-! ## Placeholder formatting (`format.rs` lines 1465-1511) -/

/-- `FormattingSuffix` (`format.rs` lines 1504-1511). -/
inductive FormattingSuffix where
  | decimalPercent -- `:0.0%`
  | integerPercent -- `:0%`
  | decimal        -- `:0.0`
  | integer        -- `:0`
  | none
  deriving DecidableEq

/-- Nearest integer with ties to even — the rounding Rust float formatting
(`format!("{:.N}", x)`) applies to the decimal expansion. -/
def roundTiesEven (x : ℚ) : ℤ :=
  let f := ⌊x⌋
  if x - f < 1 / 2 then f
  else if 1 / 2 < x - f then f + 1
  else if 2 ∣ f then f else f + 1

/-- Left-pad a digit string with zeros to length `n`. -/
def padZeros (s : String) (n : ℕ) : String :=
  ⟨List.replicate (n - s.length) '0' ++ s.data⟩

/-- `format!("{:.prec}", value)` for a nonnegative value. -/
def formatFixedNonneg (q : ℚ) (prec : ℕ) : String :=
  let n := (roundTiesEven (q * 10 ^ prec)).toNat
  if prec = 0 then toString n
  else toString (n / 10 ^ prec) ++ "." ++ padZeros (toString (n % 10 ^ prec)) prec

/-- `format!("{:.prec}", value)`: fixed-point rendering of an `f32`, here of
its exact `ℚ` model. -/
def formatFixed (q : ℚ) (prec : ℕ) : String :=
  if q < 0 then "-" ++ formatFixedNonneg (-q) prec else formatFixedNonneg q prec

/-- `format!("{value}")` — Rust's shortest-round-trip float display.  Only the
integer case is exercised by anything in this file; the non-integer case
approximates the Rust output and no theorem depends on it. -/
def formatDefault (q : ℚ) : String :=
  if q.den = 1 then toString q.num else formatFixed q 2

/-- Drop the head of a list when it is the given character — `String::pop`
guarded by `String::ends_with`, acting on the reversed character list. -/
def popHeadIf (c : Char) : List Char → List Char
  | x :: rest => if x = c then rest else x :: rest
  | [] => []

/-- The three conditional pops of the local `fn r` inside `apply_formatting`,
acting on the reversed character list (popping the last character of a string
is dropping the head of its reverse): drop a leading `'0'`, then possibly
another `'0'`, then possibly a `'.'`. -/
def rStripRevAux (rcs : List Char) : List Char :=
  popHeadIf '.' (popHeadIf '0' (popHeadIf '0' rcs))

/-- The local `fn r(mut string: String) -> String` inside `apply_formatting`
(`format.rs` lines 1485-1490): pop a trailing `'0'` (`if string.ends_with("0")
{ string.pop(); }`), then possibly another trailing `'0'`, then possibly a
trailing `'.'`. -/
def rStrip (s : String) : String :=
  ⟨(rStripRevAux s.data.reverse).reverse⟩

/-- `fn apply_formatting(value: f32, negative: bool, suffix: FormattingSuffix)`
(`format.rs` lines 1484-1502). -/
def apply_formatting (value : ℚ) (negative : Bool) (suffix : FormattingSuffix) :
    String :=
  let value := if negative then -value else value
  match suffix with
  | .decimalPercent => rStrip (formatFixed (value * 100) 2 ++ "%")
  | .integerPercent => formatFixed (value * 100) 0 ++ "%"
  | .decimal => rStrip (formatFixed value 2)
  | .integer => formatFixed value 0
  | .none => formatDefault value

/-- ASCII lowercase of a string (`str::to_lowercase`; the game keys are
ASCII). -/
def lowerStr (s : String) : String :=
  ⟨s.data.map Char.toLower⟩

/-- ASCII uppercase of a string (`str::to_uppercase`). -/
def upperStr (s : String) : String :=
  ⟨s.data.map Char.toUpper⟩

/-- `str::strip_suffix`: if `s` ends with `suf`, the rest; otherwise `none`. -/
def stripSuffixOpt (s suf : String) : Option String :=
  if s.endsWith suf then some (s.dropRight suf.length) else none

/-- `str::strip_prefix("-")` on the placeholder key. -/
def stripNegFlag (s : String) : Bool × String :=
  match s.data with
  | '-' :: rest => (true, ⟨rest⟩)
  | _ => (false, s)

/-- `fn strip_formatting_markers(string: &str) -> (String, bool, FormattingSuffix)`
(`format.rs` lines 1465-1482). -/
def strip_formatting_markers (s : String) : String × Bool × FormattingSuffix :=
  let (negative, s) := stripNegFlag s
  match stripSuffixOpt s ":0.0%" with
  | some s => (lowerStr s, negative, .decimalPercent)
  | none =>
  match stripSuffixOpt s ":0%" with
  | some s => (lowerStr s, negative, .integerPercent)
  | none =>
  match stripSuffixOpt s ":0.0" with
  | some s => (lowerStr s, negative, .decimal)
  | none =>
  match stripSuffixOpt s ":0" with
  | some s => (lowerStr s, negative, .integer)
  | none => (lowerStr s, negative, .none)

/-- A character matched by `[\w:.%\-@\[\]]` in `RX_TEMPLATE` (ASCII `\w`). -/
def templateChar (c : Char) : Bool :=
  c.isAlphanum || c = '_' || c = ':' || c = '.' || c = '%' || c = '-' ||
  c = '@' || c = '[' || c = ']'

/-- Length of the `RX_TEMPLATE` match at the head of `cs`:
`{`, a nonempty run of `templateChar`s, `}`. -/
def templateMatchLen (cs : List Char) : Option ℕ :=
  match cs with
  | '{' :: rest =>
    let run := rest.takeWhile templateChar
    match run, rest.drop run.length with
    | _ :: _, '}' :: _ => some (run.length + 2)
    | _, _ => none
  | _ => none

/-- The replacement `apply_templates` performs for one matched token
(`format.rs` lines 1446-1460, non-`assertions` configuration): trim the
braces, split the formatting markers, look the key up in the blackboard;
found keys format their value, missing keys echo the upper-cased key. -/
def templateReplacement (token : List Char) (blackboard : List (String × ℚ)) :
    List Char :=
  let key : String := ⟨(token.dropWhile (· = '{')).reverse.dropWhile (· = '}')
    |>.reverse⟩
  let (key, negative, suffix) := strip_formatting_markers key
  match blackboard.lookup key with
  | some v => (apply_formatting v negative suffix).data
  | none => (upperStr key).data

/-- `Regex::replace_all(RX_TEMPLATE, closure)` as a left-to-right scan
(same fuel discipline as `stripTagsFuel`). -/
def applyTemplatesFuel (blackboard : List (String × ℚ)) :
    ℕ → List Char → List Char
  | 0, cs => cs
  | _ + 1, [] => []
  | fuel + 1, c :: cs =>
    match templateMatchLen (c :: cs) with
    | some n =>
      templateReplacement ((c :: cs).take n) blackboard ++
        applyTemplatesFuel blackboard fuel ((c :: cs).drop n)
    | none => c :: applyTemplatesFuel blackboard fuel cs

/-- `fn apply_templates(text: &str, blackboard: HashMap<String, f32>) -> String`
(`format.rs` lines 1444-1463): strip tags, then substitute each `{...}`
token. -/
def apply_templates (text : String) (blackboard : List (String × ℚ)) : String :=
  let text := strip_tags text
  ⟨applyTemplatesFuel blackboard text.data.length text.data⟩

/-- `HashMap` construction from an iterator of key/value pairs: a later pair
with the same key overwrites an earlier one (this is the only `HashMap`
behaviour `get_blackboard` relies on). -/
def hashMapOfList (l : List (String × ℚ)) : List (String × ℚ) :=
  l.foldl (fun acc p => acc.filter (fun q => q.1 ≠ p.1) ++ [p]) []

/-! ## Assembly helpers (`format.rs` lines 1672-1686) -/

/-- `fn recollect` — map and collect. -/
def recollect (l : List α) (f : α → β) : List β :=
  l.map f

/-- `fn recollect_maybe` — map and collect into `Option<C>`: Rust's
`collect::<Option<_>>` stops at the first `None`. -/
def recollect_maybe : List α → (α → Option β) → Option (List β)
  | [], _ => some []
  | x :: xs, f =>
    match f x with
    | none => none
    | some y => (recollect_maybe xs f).map (y :: ·)

/-- `fn recollect_filter` — `filter_map` and collect. -/
def recollect_filter (l : List α) (f : α → Option β) : List β :=
  l.filterMap f

/-- `HashMap::remove(key)` on a unique-key map, modelled on an association
list: drop every pair with that key (on a map, the one pair). -/
def removeKey (t : List (String × α)) (id : String) : List (String × α) :=
  t.filter fun p => p.1 ≠ id

/-! ## Promotion conditions (`CharCondition`)

The `format/` snapshot's `CharCondition` (used by `handbook_info_table.rs`,
`character_table.rs` and `building_data.rs`) carries an already-validated
`CharPhase`; its decoder (`CharPhase::from_u32`) lives in the missing
`format/mod.rs` glue, so `into_promotion_and_level` is total here (the old
monolithic `format.rs` variant instead panics on a phase above 2). -/

inductive CharPhase where
  | phase0
  | phase1
  | phase2
  deriving DecidableEq

structure CharCondition where
  phase : CharPhase
  level : ℕ
  deriving DecidableEq

/-- `CharCondition::into_promotion_and_level`. -/
def CharCondition.into_promotion_and_level (c : CharCondition) :
    PromotionAndLevel :=
  { promotion :=
      match c.phase with
      | .phase0 => .none
      | .phase1 => .elite1
      | .phase2 => .elite2
    level := c.level }

/-- `struct ItemCost { item_id, count }` (`format.rs` lines 540-545). -/
structure ItemCost where
  item_id : String
  count : ℕ
  deriving DecidableEq

/-- `ItemCost::convert` (`format.rs` lines 547-551). -/
def ItemCost.convert (l : List ItemCost) : ItemsCost :=
  recollect l fun item => (item.item_id, item.count)

/-! ## Equipment table (`format/equip_table.rs`) -/

/-- `OperatorModuleMission` (`game_data.rs` lines 588-593). -/
structure OperatorModuleMission where
  description : String
  sort : ℕ
  deriving DecidableEq

/-- `OperatorModule` (`game_data.rs` lines 560-572). -/
structure OperatorModule where
  id : String
  name : String
  description : String
  condition : PromotionAndLevel
  required_trust : ℕ
  upgrade_cost : ItemsCost
  missions : List (String × OperatorModuleMission)
  deriving DecidableEq

/-- The range arms of `fn trust_points_to_percent` (`format/equip_table.rs`
lines 119-163), one `(lo, hi, percent)` triple per `lo..=hi => percent` arm. -/
def trustBuckets : List (ℕ × ℕ × ℕ) := [
  (0, 7, 0), (8, 15, 1), (16, 27, 2), (28, 39, 3), (40, 55, 4),
  (56, 71, 5), (72, 91, 6), (92, 111, 7), (112, 136, 8), (137, 161, 9),
  (162, 191, 10), (192, 221, 11), (222, 254, 12), (255, 287, 13), (288, 324, 14),
  (325, 361, 15), (362, 403, 16), (404, 445, 17), (446, 490, 18), (491, 535, 19),
  (536, 585, 20), (586, 635, 21), (636, 690, 22), (691, 745, 23), (746, 803, 24),
  (804, 861, 25), (862, 923, 26), (924, 985, 27), (986, 1051, 28), (1052, 1117, 29),
  (1118, 1183, 30), (1184, 1249, 31), (1250, 1315, 32), (1316, 1381, 33), (1382, 1456, 34),
  (1457, 1531, 35), (1532, 1606, 36), (1607, 1681, 37), (1682, 1756, 38), (1757, 1831, 39),
  (1832, 1916, 40), (1917, 2001, 41), (2002, 2086, 42), (2087, 2171, 43), (2172, 2256, 44),
  (2257, 2351, 45), (2352, 2446, 46), (2447, 2541, 47), (2542, 2636, 48), (2637, 2731, 49),
  (2732, 2839, 50), (2840, 2959, 51), (2960, 3079, 52), (3080, 3199, 53), (3200, 3319, 54),
  (3320, 3449, 55), (3450, 3579, 56), (3580, 3709, 57), (3710, 3839, 58), (3840, 3969, 59),
  (3970, 4109, 60), (4110, 4249, 61), (4250, 4389, 62), (4390, 4529, 63), (4530, 4669, 64),
  (4670, 4819, 65), (4820, 4969, 66), (4970, 5119, 67), (5120, 5269, 68), (5270, 5419, 69),
  (5420, 5574, 70), (5575, 5729, 71), (5730, 5884, 72), (5885, 6039, 73), (6040, 6194, 74),
  (6195, 6349, 75), (6350, 6504, 76), (6505, 6659, 77), (6660, 6814, 78), (6815, 6969, 79),
  (6970, 7124, 80), (7125, 7279, 81), (7280, 7434, 82), (7435, 7589, 83), (7590, 7744, 84),
  (7745, 7899, 85), (7900, 8054, 86), (8055, 8209, 87), (8210, 8364, 88), (8365, 8519, 89),
  (8520, 8674, 90), (8675, 8829, 91), (8830, 8984, 92), (8985, 9139, 93), (9140, 9294, 94),
  (9295, 9449, 95), (9450, 9604, 96), (9605, 9759, 97), (9760, 9914, 98), (9915, 10069, 99),
  (10070, 10224, 100), (10225, 10379, 101), (10380, 10534, 102), (10535, 10689, 103), (10690, 10844, 104),
  (10845, 10999, 105), (11000, 11154, 106), (11155, 11309, 107), (11310, 11464, 108), (11465, 11619, 109),
  (11620, 11774, 110), (11775, 11929, 111), (11930, 12084, 112), (12085, 12239, 113), (12240, 12394, 114),
  (12395, 12549, 115), (12550, 12704, 116), (12705, 12859, 117), (12860, 13014, 118), (13015, 13169, 119),
  (13170, 13324, 120), (13325, 13479, 121), (13480, 13634, 122), (13635, 13789, 123), (13790, 13944, 124),
  (13945, 14099, 125), (14100, 14254, 126), (14255, 14409, 127), (14410, 14564, 128), (14565, 14719, 129),
  (14720, 14874, 130), (14875, 15029, 131), (15030, 15184, 132), (15185, 15339, 133), (15340, 15494, 134),
  (15495, 15649, 135), (15650, 15804, 136), (15805, 15959, 137), (15960, 16114, 138), (16115, 16269, 139),
  (16270, 16424, 140), (16425, 16579, 141), (16580, 16734, 142), (16735, 16889, 143), (16890, 17044, 144),
  (17045, 17199, 145), (17200, 17354, 146), (17355, 17509, 147), (17510, 17664, 148), (17665, 17819, 149),
  (17820, 17974, 150), (17975, 18129, 151), (18130, 18284, 152), (18285, 18439, 153), (18440, 18594, 154),
  (18595, 18749, 155), (18750, 18904, 156), (18905, 19059, 157), (19060, 19214, 158), (19215, 19369, 159),
  (19370, 19524, 160), (19525, 19679, 161), (19680, 19834, 162), (19835, 19989, 163), (19990, 20144, 164),
  (20145, 20299, 165), (20300, 20454, 166), (20455, 20609, 167), (20610, 20764, 168), (20765, 20919, 169),
  (20920, 21074, 170), (21075, 21229, 171), (21230, 21384, 172), (21385, 21539, 173), (21540, 21694, 174),
  (21695, 21849, 175), (21850, 22004, 176), (22005, 22159, 177), (22160, 22314, 178), (22315, 22469, 179),
  (22470, 22624, 180), (22625, 22779, 181), (22780, 22934, 182), (22935, 23089, 183), (23090, 23244, 184),
  (23245, 23399, 185), (23400, 23554, 186), (23555, 23709, 187), (23710, 23864, 188), (23865, 24019, 189),
  (24020, 24174, 190), (24175, 24329, 191), (24330, 24484, 192), (24485, 24639, 193), (24640, 24794, 194),
  (24795, 24949, 195), (24950, 25104, 196), (25105, 25259, 197), (25260, 25414, 198), (25415, 25569, 199),
  (25570, 4294967295, 200)]

/-- `fn trust_points_to_percent(points: u32) -> u32`: the bucketed lookup.
The arms cover all of `u32`, so the fallback branch is unreachable; it returns
`0` here. -/
def trust_points_to_percent (points : ℕ) : ℕ :=
  ((trustBuckets.find? fun b => b.1 ≤ points && points ≤ b.2.1).map
    (fun b => b.2.2)).getD 0


/-- `EquipTablePhase` (`format/equip_table.rs` lines 90-96). -/
inductive EquipTablePhase where
  | elite0
  | elite1
  | elite2
  deriving DecidableEq

/-- `EquipTablePhase::into_promotion` (`format/equip_table.rs` lines 98-106). -/
def EquipTablePhase.into_promotion : EquipTablePhase → Promotion
  | .elite0 => .none
  | .elite1 => .elite1
  | .elite2 => .elite2

/-- `EquipTableMission` (`format/equip_table.rs` lines 73-79). -/
structure EquipTableMission where
  description : String
  sort : ℕ
  deriving DecidableEq

/-- `EquipTableMission::into_operator_module_mission`
(`format/equip_table.rs` lines 81-88). -/
def EquipTableMission.into_operator_module_mission (m : EquipTableMission) :
    OperatorModuleMission :=
  { description := m.description, sort := m.sort }

/-- `EquipTableEquip` (`format/equip_table.rs` lines 32-50). -/
structure EquipTableEquip where
  id : String
  name : String
  description : String
  unlock_phase : EquipTablePhase
  unlock_level : ℕ
  unlock_trust_points : ℕ
  mission_list : List String
  item_cost : Option (List ItemCost)
  deriving DecidableEq

/-- `EquipTableEquip::into_operator_module`
(`format/equip_table.rs` lines 52-71): resolve every mission id against the
mission map; any miss fails the whole module. -/
def EquipTableEquip.into_operator_module (e : EquipTableEquip)
    (mission_list : List (String × EquipTableMission)) : Option OperatorModule :=
  (recollect_maybe e.mission_list fun id =>
    (mission_list.lookup id).map fun m =>
      (id, m.into_operator_module_mission)).map fun missions =>
  { id := e.id
    name := e.name
    description := e.description
    condition :=
      { promotion := e.unlock_phase.into_promotion, level := e.unlock_level }
    required_trust := trust_points_to_percent e.unlock_trust_points
    upgrade_cost := ItemCost.convert (e.item_cost.getD [])
    missions := missions }

/-- `EquipTable` (`format/equip_table.rs` lines 11-19). -/
structure EquipTable where
  equip_list : List (String × EquipTableEquip)
  mission_list : List (String × EquipTableMission)
  character_equip_list : List (String × List String)
  deriving DecidableEq

/-- The loop body of `take_operator_modules`: walk the (already tail-only)
equipment id list, removing each id from `equip_list` when found and
resolving it; `collect::<Option<_>>` stops at the first failure, and the
removals made so far persist (the Rust closure mutates `self.equip_list`). -/
def takeModulesLoop (ml : List (String × EquipTableMission)) :
    List String → List (String × EquipTableEquip) →
    Option (List OperatorModule) × List (String × EquipTableEquip)
  | [], el => (some [], el)
  | eid :: rest, el =>
    match el.lookup eid with
    | none => (none, el)
    | some e =>
      let el := removeKey el eid
      match e.into_operator_module ml with
      | none => (none, el)
      | some m =>
        match takeModulesLoop ml rest el with
        | (none, el) => (none, el)
        | (some ms, el) => (some (m :: ms), el)

/-- `EquipTable::take_operator_modules` (`format/equip_table.rs` lines 21-30):
remove the character's equipment id list, skip its first element, and resolve
the remainder by draining `equip_list`. -/
def EquipTable.take_operator_modules (t : EquipTable) (id : String) :
    Option (List OperatorModule) × EquipTable :=
  match t.character_equip_list.lookup id with
  | none => (none, t)
  | some character_equip_list =>
    let t := { t with
      character_equip_list := removeKey t.character_equip_list id }
    let (res, el) := takeModulesLoop t.mission_list
      (character_equip_list.drop 1) t.equip_list
    (res, { t with equip_list := el })

/-! ## Handbook table (`format/handbook_info_table.rs`) -/

/-- `OperatorFileUnlock` (`game_data.rs` lines 1166-1176). -/
inductive OperatorFileUnlock where
  | alwaysUnlocked
  | trust (amount : ℕ)
  | promotionLevel (condition : PromotionAndLevel)
  | operatorUnlocked (id : String)
  deriving DecidableEq

/-- `OperatorFileEntry` (`game_data.rs` lines 1120-1125). -/
structure OperatorFileEntry where
  title : String
  text : String
  unlock_condition : OperatorFileUnlock
  deriving DecidableEq

/-- `OperatorFile` (`game_data.rs` lines 1074-1083; the `format/` snapshot
writes this `operator_id` field as `id`). -/
structure OperatorFile where
  operator_id : String
  illustrator_name : String
  entries : List OperatorFileEntry
  deriving DecidableEq

/-- `HandbookStoryUnlockParam` (`format/handbook_info_table.rs` lines 78-87). -/
inductive HandbookStoryUnlockParam where
  | always
  | charCondition (c : CharCondition)
  | trust (amount : ℕ)
  | other (s : String)
  deriving DecidableEq

/-- `HandbookStoryUnlockParam::into_operator_file_unlock`
(`format/handbook_info_table.rs` lines 89-109). -/
def HandbookStoryUnlockParam.into_operator_file_unlock :
    HandbookStoryUnlockParam → ℕ → OperatorFileUnlock
  | .always, _ => .alwaysUnlocked
  | .charCondition c, _ => .promotionLevel c.into_promotion_and_level
  | .trust t, _ => .trust t
  | .other char_id, unlock_type =>
    if unlock_type = 6 then .operatorUnlocked char_id else .alwaysUnlocked

/-- `HandbookStory` (`format/handbook_info_table.rs` lines 68-76). -/
structure HandbookStory where
  story_text : String
  unlock_type : ℕ
  unlock_param : HandbookStoryUnlockParam
  deriving DecidableEq

/-- `HandbookStoryEntry` (`format/handbook_info_table.rs` lines 46-51); the
`stories: [HandbookStory; 1]` array of length one is modelled as a single
field. -/
structure HandbookStoryEntry where
  stories : HandbookStory
  story_title : String
  deriving DecidableEq

/-- `HandbookStoryEntry::into_operator_file_entry`
(`format/handbook_info_table.rs` lines 53-66). -/
def HandbookStoryEntry.into_operator_file_entry (e : HandbookStoryEntry) :
    OperatorFileEntry :=
  { title := e.story_title
    text := e.stories.story_text
    unlock_condition :=
      e.stories.unlock_param.into_operator_file_unlock e.stories.unlock_type }

/-- `HandbookInfoTableEntry` (`format/handbook_info_table.rs` lines 26-34). -/
structure HandbookInfoTableEntry where
  char_id : String
  illustrator_name : String
  story_entries : List HandbookStoryEntry
  deriving DecidableEq

/-- `HandbookInfoTableEntry::into_operator_file`
(`format/handbook_info_table.rs` lines 36-44). -/
def HandbookInfoTableEntry.into_operator_file (e : HandbookInfoTableEntry) :
    OperatorFile :=
  { operator_id := e.char_id
    illustrator_name := e.illustrator_name
    entries :=
      recollect e.story_entries HandbookStoryEntry.into_operator_file_entry }

/-- `HandbookInfoTable` (`format/handbook_info_table.rs` lines 13-18). -/
structure HandbookInfoTable where
  handbook_dict : List (String × HandbookInfoTableEntry)
  deriving DecidableEq

/-- `HandbookInfoTable::take_operator_file`
(`format/handbook_info_table.rs` lines 20-24): `HashMap::remove` returning the
removed entry, converted. -/
def HandbookInfoTable.take_operator_file (t : HandbookInfoTable) (id : String) :
    Option OperatorFile × HandbookInfoTable :=
  ((t.handbook_dict.lookup id).map HandbookInfoTableEntry.into_operator_file,
    { handbook_dict := removeKey t.handbook_dict id })

/-! ## Skill table (`format/skill_table.rs`) -/

/-- `SkillActivation` (`game_data.rs` lines 496-502). -/
inductive SkillActivation where
  | passive
  | manual
  | auto
  deriving DecidableEq

/-- `SkillRecovery` (`game_data.rs` lines 504-512). -/
inductive SkillRecovery where
  | passive
  | autoRecovery
  | offensiveRecovery
  | defensiveRecovery
  deriving DecidableEq

/-- `SkillTableSkillType` (`format/skill_table.rs` lines 139-145). -/
inductive SkillTableSkillType where
  | passive
  | manual
  | auto
  deriving DecidableEq

/-- `SkillTableSkillType::into_activation`
(`format/skill_table.rs` lines 147-155). -/
def SkillTableSkillType.into_activation : SkillTableSkillType → SkillActivation
  | .passive => .passive
  | .manual => .manual
  | .auto => .auto

/-- `SkillTableSpType` (`format/skill_table.rs` lines 107-114). -/
inductive SkillTableSpType where
  | autoRecovery
  | offensiveRecovery
  | defensiveRecovery
  | passive
  deriving DecidableEq

/-- `SkillTableSpType::into_recovery` (`format/skill_table.rs` lines 116-125). -/
def SkillTableSpType.into_recovery : SkillTableSpType → SkillRecovery
  | .passive => .passive
  | .autoRecovery => .autoRecovery
  | .offensiveRecovery => .offensiveRecovery
  | .defensiveRecovery => .defensiveRecovery

/-- `SkillTableSpData` (`format/skill_table.rs` lines 87-99). -/
structure SkillTableSpData where
  sp_type : SkillTableSpType
  max_charge_time : ℕ
  sp_cost : ℕ
  init_sp : ℕ
  increment : ℚ
  deriving DecidableEq

/-- `SkillTableBlackboardEntry` (`format/skill_table.rs` lines 101-105). -/
structure SkillTableBlackboardEntry where
  key : String
  value : ℚ
  deriving DecidableEq

/-- `SkillTableLevel` (`format/skill_table.rs` lines 36-51). -/
structure SkillTableLevel where
  name : String
  range_id : Option String
  description : Option String
  skill_type : SkillTableSkillType
  sp_data : SkillTableSpData
  prefab_key : Option String
  duration : ℚ
  blackboard : List SkillTableBlackboardEntry
  deriving DecidableEq

/-- `OperatorSkillLevel` (`game_data.rs` lines 442-452). -/
structure OperatorSkillLevel where
  description : Option String
  attack_range_id : Option String
  prefab_key : Option String
  duration : ℚ
  max_charge_time : ℕ
  sp_cost : ℕ
  initial_sp : ℕ
  increment : ℚ
  deriving DecidableEq

/-- `SkillTableLevel::get_blackboard` (`format/skill_table.rs` lines 69-74):
lower-cased explicit entries plus the always-injected `duration` entry,
collected into a `HashMap` (later entries overwrite earlier ones). -/
def SkillTableLevel.get_blackboard (l : SkillTableLevel) : List (String × ℚ) :=
  hashMapOfList
    ((l.blackboard.map fun e => (lowerStr e.key, e.value)) ++
      [("duration", l.duration)])

/-- `SkillTableLevel::apply_blackboard` (`format/skill_table.rs` lines 76-84):
render the description template unless it is absent or the placeholder
`"-"`. -/
def SkillTableLevel.apply_blackboard (l : SkillTableLevel) : Option String :=
  l.description.bind fun description =>
    if description ≠ "-" then
      some (apply_templates description l.get_blackboard)
    else
      none

/-- `SkillTableLevel::into_skill_level` (`format/skill_table.rs` lines 53-67). -/
def SkillTableLevel.into_skill_level (l : SkillTableLevel) : OperatorSkillLevel :=
  { description := l.apply_blackboard
    attack_range_id := l.range_id
    prefab_key := l.prefab_key
    duration := l.duration
    max_charge_time := l.sp_data.max_charge_time
    sp_cost := l.sp_data.sp_cost
    initial_sp := l.sp_data.init_sp
    increment := l.sp_data.increment }

/-- `SkillTableEntry` (`format/skill_table.rs` lines 13-16). -/
structure SkillTableEntry where
  levels : List SkillTableLevel
  deriving DecidableEq

/-- `SkillTableEntry::split_levels` (`format/skill_table.rs` lines 18-25):
fail below 7 levels; otherwise the first 7 are the base levels and the rest
are the mastery levels exactly when there are exactly 3 of them
(`<&[_; 3]>::try_from(end).ok()`). -/
def SkillTableEntry.split_levels (e : SkillTableEntry) :
    Option (List SkillTableLevel × Option (List SkillTableLevel)) :=
  if e.levels.length < 7 then none
  else
    some (e.levels.take 7,
      if (e.levels.drop 7).length = 3 then some (e.levels.drop 7) else none)

/-- `fn all_equal` (`format.rs` lines 403-413): the first item if all items
equal it, `None` for an empty iterator. -/
def all_equal [DecidableEq α] : List α → Option α
  | [] => none
  | x :: xs => if xs.all (· = x) then some x else none

/-- `SkillTableEntry::name_activation_recovery`
(`format/skill_table.rs` lines 27-33). -/
def SkillTableEntry.name_activation_recovery (e : SkillTableEntry) :
    Option (String × SkillActivation × SkillRecovery) :=
  all_equal (e.levels.map fun l =>
    (l.name, l.skill_type.into_activation, l.sp_data.sp_type.into_recovery))

/-- `SkillTable = HashMap<String, SkillTableEntry>`. -/
abbrev SkillTable := List (String × SkillTableEntry)

/-! ## Building data (`format/building_data.rs`)

Only the slice reachable from `get_operator_base_skill` is embedded (the
`rooms` map and `into_buildings` feed no claim). -/

/-- `BuildingType` (`game_data.rs` lines 1029-1043). -/
inductive BuildingType where
  | controlCenter
  | powerPlant
  | factory
  | tradingPost
  | dormitory
  | workshop
  | office
  | trainingRoom
  | receptionRoom
  | elevator
  | corridor
  deriving DecidableEq

/-- `BuildingDataRoomId` (`format/building_data.rs` lines 107-131). -/
inductive BuildingDataRoomId where
  | controlCenter
  | powerPlant
  | factory
  | tradingPost
  | dormitory
  | workshop
  | office
  | trainingRoom
  | receptionRoom
  | elevator
  | corridor
  deriving DecidableEq

/-- `BuildingDataRoomId::into_building_type`
(`format/building_data.rs` lines 133-149). -/
def BuildingDataRoomId.into_building_type : BuildingDataRoomId → BuildingType
  | .controlCenter => .controlCenter
  | .powerPlant => .powerPlant
  | .factory => .factory
  | .tradingPost => .tradingPost
  | .dormitory => .dormitory
  | .workshop => .workshop
  | .office => .office
  | .trainingRoom => .trainingRoom
  | .receptionRoom => .receptionRoom
  | .elevator => .elevator
  | .corridor => .corridor

/-- `OperatorBaseSkillCategory` (`game_data.rs` lines 626-632). -/
inductive OperatorBaseSkillCategory where
  | function
  | recovery
  | output
  deriving DecidableEq

/-- `BuildingDataBuffCategory` (`format/building_data.rs` lines 217-225). -/
inductive BuildingDataBuffCategory where
  | function
  | recovery
  | output
  deriving DecidableEq

/-- `BuildingDataBuffCategory::into_operator_base_skill_category`
(`format/building_data.rs` lines 227-235). -/
def BuildingDataBuffCategory.into_operator_base_skill_category :
    BuildingDataBuffCategory → OperatorBaseSkillCategory
  | .function => .function
  | .recovery => .recovery
  | .output => .output

/-- `OperatorBaseSkillPhase` (`game_data.rs` lines 609-616). -/
structure OperatorBaseSkillPhase where
  name : String
  condition : PromotionAndLevel
  sort : ℕ
  category : OperatorBaseSkillCategory
  building_type : BuildingType
  deriving DecidableEq

/-- `OperatorBaseSkill` (`game_data.rs` lines 596-599). -/
structure OperatorBaseSkill where
  phases : List OperatorBaseSkillPhase
  deriving DecidableEq

/-- `BuildingDataBuff` (`format/building_data.rs` lines 192-203). -/
structure BuildingDataBuff where
  name : String
  sort : ℕ
  category : BuildingDataBuffCategory
  room_type : BuildingDataRoomId
  deriving DecidableEq

/-- `BuildingDataBuff::to_operator_base_skill_phase`
(`format/building_data.rs` lines 205-215). -/
def BuildingDataBuff.to_operator_base_skill_phase (b : BuildingDataBuff)
    (condition : CharCondition) : OperatorBaseSkillPhase :=
  { name := b.name
    condition := condition.into_promotion_and_level
    sort := b.sort
    category := b.category.into_operator_base_skill_category
    building_type := b.room_type.into_building_type }

/-- `BuildingDataCharBuffPhase` (`format/building_data.rs` lines 177-183). -/
structure BuildingDataCharBuffPhase where
  id : String
  condition : CharCondition
  deriving DecidableEq

/-- `BuildingDataCharBuff` (`format/building_data.rs` lines 160-165). -/
structure BuildingDataCharBuff where
  phases : List BuildingDataCharBuffPhase
  deriving DecidableEq

/-- `BuildingDataChar` (`format/building_data.rs` lines 153-158). -/
structure BuildingDataChar where
  buffs : List BuildingDataCharBuff
  deriving DecidableEq

/-- `BuildingData` (`format/building_data.rs` lines 11-16), restricted to the
`chars` and `buffs` maps that `get_operator_base_skill` reads. -/
structure BuildingData where
  chars : List (String × BuildingDataChar)
  buffs : List (String × BuildingDataBuff)
  deriving DecidableEq

/-- `BuildingDataCharBuffPhase::to_operator_base_skill_phase`
(`format/building_data.rs` lines 185-190).  The Rust code indexes
`building_data.buffs[id]` and panics on a missing buff; the (unreachable on
real data) panic is modelled as `none`. -/
def BuildingDataCharBuffPhase.to_operator_base_skill_phase
    (p : BuildingDataCharBuffPhase) (bd : BuildingData) :
    Option OperatorBaseSkillPhase :=
  (bd.buffs.lookup p.id).map fun buff =>
    buff.to_operator_base_skill_phase p.condition

/-- `BuildingDataCharBuff::to_operator_base_skill`
(`format/building_data.rs` lines 167-175): `None` for an empty phase list. -/
def BuildingDataCharBuff.to_operator_base_skill (b : BuildingDataCharBuff)
    (bd : BuildingData) : Option OperatorBaseSkill :=
  if b.phases.isEmpty then none
  else
    (recollect_maybe b.phases fun p =>
      p.to_operator_base_skill_phase bd).map fun phases =>
    { phases := phases }

/-- `BuildingData::get_operator_base_skill`
(`format/building_data.rs` lines 27-32): a missing operator yields the empty
list. -/
def BuildingData.get_operator_base_skill (bd : BuildingData) (id : String) :
    List OperatorBaseSkill :=
  match bd.chars.lookup id with
  | none => []
  | some ch => ch.buffs.filterMap fun buff => buff.to_operator_base_skill bd

/-! ## Character table (`format/character_table.rs`) -/

/-- `Position` (`game_data.rs` lines 658-664). -/
inductive Position where
  | melee
  | ranged
  deriving DecidableEq

/-- `Profession` (`game_data.rs` lines 707-719). -/
inductive Profession where
  | caster
  | medic
  | vanguard
  | sniper
  | specialist
  | support
  | tank
  | guard
  deriving DecidableEq

/-- `SubProfession` (`game_data.rs` lines 721-788). -/
inductive SubProfession where
  | blastCaster
  | chainCaster
  | coreCaster
  | mechAccordCaster
  | mysticCaster
  | phalanxCaster
  | splashCaster
  | therapist
  | medic
  | multiTargetMedic
  | wanderingMedic
  | standardBearer
  | charger
  | pioneer
  | tactician
  | artilleryman
  | flinger
  | heavyshooter
  | marksman
  | deadeye
  | spreadshooter
  | besieger
  | dollkeeper
  | executor
  | geek
  | hookmaster
  | merchant
  | pushStroker
  | ambusher
  | trapmaster
  | bard
  | abjurer
  | artificer
  | decelBinder
  | summoner
  | hexer
  | artsProtector
  | duelist
  | fortress
  | guardian
  | protector
  | juggernaut
  | artsFighter
  | centurion
  | dreadnought
  | fighter
  | instructor
  | liberator
  | lord
  | musha
  | reaper
  | swordmaster
  deriving DecidableEq

/-- `CharacterTablePosition` (`format/character_table.rs` lines 221-232). -/
inductive CharacterTablePosition where
  | melee
  | ranged
  | all
  | none
  deriving DecidableEq

/-- `CharacterTablePosition::into_position`
(`format/character_table.rs` lines 234-243): `ALL`/`NONE` are unmapped. -/
def CharacterTablePosition.into_position :
    CharacterTablePosition → Option Position
  | .melee => some .melee
  | .ranged => some .ranged
  | .all => .none
  | .none => .none

/-- `CharacterTableProfession` (`format/character_table.rs` lines 377-399). -/
inductive CharacterTableProfession where
  | caster
  | medic
  | vanguard
  | sniper
  | specialist
  | support
  | tank
  | guard
  | token
  | trap
  deriving DecidableEq

/-- `CharacterTableProfession::into_profession`
(`format/character_table.rs` lines 401-415): `TOKEN`/`TRAP` are unmapped. -/
def CharacterTableProfession.into_profession :
    CharacterTableProfession → Option Profession
  | .caster => some .caster
  | .medic => some .medic
  | .vanguard => some .vanguard
  | .sniper => some .sniper
  | .specialist => some .specialist
  | .support => some .support
  | .tank => some .tank
  | .guard => some .guard
  | .token => none
  | .trap => none

/-- `CharacterTableSubProfession` (`format/character_table.rs` lines 417-540). -/
inductive CharacterTableSubProfession where
  | blastCaster
  | chainCaster
  | coreCaster
  | mechAccordCaster
  | mysticCaster
  | phalanxCaster
  | splashCaster
  | therapist
  | medic
  | multiTargetMedic
  | wanderingMedic
  | standardBearer
  | charger
  | pioneer
  | tactician
  | artilleryman
  | flinger
  | heavyshooter
  | marksman
  | deadeye
  | spreadshooter
  | besieger
  | dollkeeper
  | executor
  | geek
  | hookmaster
  | merchant
  | pushStroker
  | ambusher
  | trapmaster
  | bard
  | abjurer
  | artificer
  | decelBinder
  | summoner
  | hexer
  | artsProtector
  | duelist
  | fortress
  | guardian
  | protector
  | juggernaut
  | artsFighter
  | centurion
  | dreadnought
  | fighter
  | instructor
  | liberator
  | lord
  | musha
  | reaper
  | swordmaster
  | none1
  | none2
  | notChar1
  | notChar2
  deriving DecidableEq

/-- `CharacterTableSubProfession::into_sub_profession`
(`format/character_table.rs` lines 542-600): the four non-operator tags are
unmapped. -/
def CharacterTableSubProfession.into_sub_profession :
    CharacterTableSubProfession → Option SubProfession
  | .blastCaster => some .blastCaster
  | .chainCaster => some .chainCaster
  | .coreCaster => some .coreCaster
  | .mechAccordCaster => some .mechAccordCaster
  | .mysticCaster => some .mysticCaster
  | .phalanxCaster => some .phalanxCaster
  | .splashCaster => some .splashCaster
  | .therapist => some .therapist
  | .medic => some .medic
  | .multiTargetMedic => some .multiTargetMedic
  | .wanderingMedic => some .wanderingMedic
  | .standardBearer => some .standardBearer
  | .charger => some .charger
  | .pioneer => some .pioneer
  | .tactician => some .tactician
  | .artilleryman => some .artilleryman
  | .flinger => some .flinger
  | .heavyshooter => some .heavyshooter
  | .marksman => some .marksman
  | .deadeye => some .deadeye
  | .spreadshooter => some .spreadshooter
  | .besieger => some .besieger
  | .dollkeeper => some .dollkeeper
  | .executor => some .executor
  | .geek => some .geek
  | .hookmaster => some .hookmaster
  | .merchant => some .merchant
  | .pushStroker => some .pushStroker
  | .ambusher => some .ambusher
  | .trapmaster => some .trapmaster
  | .bard => some .bard
  | .abjurer => some .abjurer
  | .artificer => some .artificer
  | .decelBinder => some .decelBinder
  | .summoner => some .summoner
  | .hexer => some .hexer
  | .artsProtector => some .artsProtector
  | .duelist => some .duelist
  | .fortress => some .fortress
  | .guardian => some .guardian
  | .protector => some .protector
  | .juggernaut => some .juggernaut
  | .artsFighter => some .artsFighter
  | .centurion => some .centurion
  | .dreadnought => some .dreadnought
  | .fighter => some .fighter
  | .instructor => some .instructor
  | .liberator => some .liberator
  | .lord => some .lord
  | .musha => some .musha
  | .reaper => some .reaper
  | .swordmaster => some .swordmaster
  | .none1 => none
  | .none2 => none
  | .notChar1 => none
  | .notChar2 => none

/-- `CharacterTableKeyFrameData` (`format/character_table.rs` lines 181-219). -/
structure CharacterTableKeyFrameData where
  max_hp : ℕ
  atk : ℕ
  def_ : ℕ
  magic_resistance : ℚ
  cost : ℕ
  block_count : ℕ
  move_speed : ℚ
  attack_speed : ℚ
  base_attack_time : ℚ
  respawn_time : ℕ
  hp_recovery_per_sec : ℚ
  sp_recovery_per_sec : ℚ
  max_deploy_count : ℕ
  max_deck_stack_count : ℕ
  taunt_level : ℤ
  is_stun_immune : Bool
  is_silence_immune : Bool
  is_sleep_immune : Bool
  is_frozen_immune : Bool
  deriving DecidableEq

/-- `CharacterTableKeyFrame` (`format/character_table.rs` lines 140-144). -/
structure CharacterTableKeyFrame where
  level : ℕ
  data : CharacterTableKeyFrameData
  deriving DecidableEq

/-- `CharacterTableKeyFrame::into_operator_promotion_attributes`
(`format/character_table.rs` lines 146-170). -/
def CharacterTableKeyFrame.into_operator_promotion_attributes
    (k : CharacterTableKeyFrame) : OperatorPromotionAttributes :=
  { level := k.level
    max_hp := k.data.max_hp
    atk := k.data.atk
    def_ := k.data.def_
    magic_resistance := k.data.magic_resistance
    deployment_cost := k.data.cost
    block_count := k.data.block_count
    move_speed := k.data.move_speed
    attack_speed := k.data.attack_speed
    base_attack_time := k.data.base_attack_time
    redeploy_time := k.data.respawn_time
    hp_recovery_per_sec := k.data.hp_recovery_per_sec
    sp_recovery_per_sec := k.data.sp_recovery_per_sec
    max_deploy_count := k.data.max_deploy_count
    max_deck_stack_count := k.data.max_deck_stack_count
    taunt_level := k.data.taunt_level
    is_stun_immune := k.data.is_stun_immune
    is_silence_immune := k.data.is_silence_immune
    is_sleep_immune := k.data.is_sleep_immune
    is_frozen_immune := k.data.is_frozen_immune }

/-- `CharacterTableKeyFrame::into_operator_trust_attributes`
(`format/character_table.rs` lines 172-178). -/
def CharacterTableKeyFrame.into_operator_trust_attributes
    (k : CharacterTableKeyFrame) : OperatorTrustAttributes :=
  { max_hp := k.data.max_hp, atk := k.data.atk, def_ := k.data.def_ }

/-- `CharacterTablePhase` (`format/character_table.rs` lines 114-125); the
`attributesKeyFrames: [CharacterTableKeyFrame; 2]` array is modelled as a
pair. -/
structure CharacterTablePhase where
  range_id : Option String
  max_level : ℕ
  attributes_key_frames : CharacterTableKeyFrame × CharacterTableKeyFrame
  upgrade_cost : List ItemCost
  deriving DecidableEq

/-- `CharacterTablePhase::into_operator_promotion`
(`format/character_table.rs` lines 127-138). -/
def CharacterTablePhase.into_operator_promotion (p : CharacterTablePhase) :
    OperatorPromotion :=
  { attack_range_id := p.range_id
    min_attributes :=
      p.attributes_key_frames.1.into_operator_promotion_attributes
    max_attributes :=
      p.attributes_key_frames.2.into_operator_promotion_attributes
    max_level := p.max_level
    upgrade_cost := ItemCost.convert p.upgrade_cost }

/-- `OperatorSkillMastery` (`game_data.rs` lines 465-471). -/
structure OperatorSkillMastery where
  condition : PromotionAndLevel
  upgrade_time : ℕ
  upgrade_cost : ItemsCost
  level : OperatorSkillLevel
  deriving DecidableEq

/-- `OperatorSkill` (`game_data.rs` lines 409-422); the length-7 `levels`
array and length-3 `mastery` array are modelled as lists (their lengths are
established by `split_levels`). -/
structure OperatorSkill where
  id : String
  name : String
  prefab_key : Option String
  condition : PromotionAndLevel
  activation : SkillActivation
  recovery : SkillRecovery
  levels : List OperatorSkillLevel
  mastery : Option (List OperatorSkillMastery)
  deriving DecidableEq

/-- `CharacterTableSkillMastery` (`format/character_table.rs` lines 283-292). -/
structure CharacterTableSkillMastery where
  unlock_condition : CharCondition
  level_up_time : ℕ
  level_up_cost : List ItemCost
  deriving DecidableEq

/-- `CharacterTableSkillMastery::into_operator_skill_mastery`
(`format/character_table.rs` lines 294-303). -/
def CharacterTableSkillMastery.into_operator_skill_mastery
    (m : CharacterTableSkillMastery) (skill_table_level : SkillTableLevel) :
    OperatorSkillMastery :=
  { condition := m.unlock_condition.into_promotion_and_level
    upgrade_time := m.level_up_time
    upgrade_cost := ItemCost.convert m.level_up_cost
    level := skill_table_level.into_skill_level }

/-- `CharacterTableSkill` (`format/character_table.rs` lines 245-257); the
`Option<[CharacterTableSkillMastery; 3]>` (length 3 enforced by the decode
layer) is modelled as an optional list. -/
structure CharacterTableSkill where
  id : Option String
  override_prefab_key : Option String
  mastery_upgrades : Option (List CharacterTableSkillMastery)
  unlock_condition : CharCondition
  deriving DecidableEq

/-- `CharacterTableSkill::into_operator_skill`
(`format/character_table.rs` lines 259-281): resolve the referenced skill
table entry, require a common name/activation/recovery across its levels and
at least the 7 base levels; mastery appears only when both the character
mastery upgrades and the entry's exactly-3 extra levels exist
(`Option::zip`); `zip_map` is `List.zipWith`. -/
def CharacterTableSkill.into_operator_skill (s : CharacterTableSkill)
    (skill_table : SkillTable) : Option OperatorSkill := do
  let id ← s.id
  let skill_table_entry ← skill_table.lookup id
  let (name, activation, recovery) ← skill_table_entry.name_activation_recovery
  let (skill_table_levels7, skill_table_levels3) ←
    skill_table_entry.split_levels
  let levels := skill_table_levels7.map SkillTableLevel.into_skill_level
  let mastery :=
    match s.mastery_upgrades, skill_table_levels3 with
    | some mastery_upgrades, some skill_table_levels =>
      some (List.zipWith CharacterTableSkillMastery.into_operator_skill_mastery
        mastery_upgrades skill_table_levels)
    | _, _ => none
  pure
    { id := id
      name := name
      prefab_key := s.override_prefab_key
      condition := s.unlock_condition.into_promotion_and_level
      activation := activation
      recovery := recovery
      levels := levels
      mastery := mastery }

/-- `OperatorTalentPhase` (`game_data.rs` lines 529-545). -/
structure OperatorTalentPhase where
  name : String
  description : String
  condition : PromotionAndLevel
  required_potential : ℕ
  prefab_key : String
  attack_range_id : Option String
  effects : List (String × ℚ)
  deriving DecidableEq

/-- `OperatorTalent` (`game_data.rs` lines 514-519). -/
structure OperatorTalent where
  phases : List OperatorTalentPhase
  deriving DecidableEq

/-- `CharacterTableTalentBlackboard` (`format/character_table.rs` lines 350-354). -/
structure CharacterTableTalentBlackboard where
  key : String
  value : ℚ
  deriving DecidableEq

/-- `CharacterTableTalentBlackboard::convert`
(`format/character_table.rs` lines 356-360). -/
def CharacterTableTalentBlackboard.convert
    (blackboard : List CharacterTableTalentBlackboard) : List (String × ℚ) :=
  recollect blackboard fun item => (item.key, item.value)

/-- `CharacterTableTalentCandidate` (`format/character_table.rs` lines 321-334). -/
structure CharacterTableTalentCandidate where
  unlock_condition : CharCondition
  required_potential_rank : ℕ
  prefab_key : String
  name : Option String
  description : Option String
  range_id : Option String
  blackboard : List CharacterTableTalentBlackboard
  deriving DecidableEq

/-- `CharacterTableTalentCandidate::into_operator_talent_phase`
(`format/character_table.rs` lines 336-348): both name and description must
be present. -/
def CharacterTableTalentCandidate.into_operator_talent_phase
    (c : CharacterTableTalentCandidate) : Option OperatorTalentPhase := do
  let name ← c.name
  let description ← c.description
  pure
    { name := name
      description := strip_tags description
      condition := c.unlock_condition.into_promotion_and_level
      required_potential := c.required_potential_rank
      prefab_key := c.prefab_key
      attack_range_id := c.range_id
      effects := CharacterTableTalentBlackboard.convert c.blackboard }

/-- `CharacterTableTalent` (`format/character_table.rs` lines 305-311). -/
structure CharacterTableTalent where
  phases : List CharacterTableTalentCandidate
  deriving DecidableEq

/-- `CharacterTableTalent::into_operator_talent`
(`format/character_table.rs` lines 313-319). -/
def CharacterTableTalent.into_operator_talent (t : CharacterTableTalent) :
    Option OperatorTalent :=
  (recollect_maybe t.phases
    CharacterTableTalentCandidate.into_operator_talent_phase).map
  fun phases => { phases := phases }

/-- `OperatorPotential` (`game_data.rs` lines 399-406). -/
structure OperatorPotential where
  potential_type : ℕ
  description : String
  deriving DecidableEq

/-- `CharacterTablePotentialRank` (`format/character_table.rs` lines 362-367). -/
structure CharacterTablePotentialRank where
  potential_type : ℕ
  description : String
  deriving DecidableEq

/-- `CharacterTablePotentialRank::into_operator_potential`
(`format/character_table.rs` lines 369-375). -/
def CharacterTablePotentialRank.into_operator_potential
    (r : CharacterTablePotentialRank) : OperatorPotential :=
  { potential_type := r.potential_type
    description := strip_tags r.description }

/-- `OperatorPromotions` (`game_data.rs` lines 200-208). -/
structure OperatorPromotions where
  none : OperatorPromotion
  elite1 : Option OperatorPromotion
  elite2 : Option OperatorPromotion
  deriving DecidableEq

/-- `Operator` (`game_data.rs` lines 120-171), with the fields the
`format/character_table.rs` snapshot constructs (that snapshot has no `skins`
map).  `rarity: NonZeroU8` is a `Nat` (always `raw rarity + 1 ≥ 1`). -/
structure Operator where
  id : String
  name : String
  nation_id : Option String
  group_id : Option String
  team_id : Option String
  display_number : String
  position : Position
  appellation : Option String
  recruitment_tags : List String
  rarity : ℕ
  profession : Profession
  sub_profession : SubProfession
  promotions : OperatorPromotions
  potential_item_id : Option String
  potential : List OperatorPotential
  skills : List OperatorSkill
  talents : List OperatorTalent
  modules : List OperatorModule
  base_skills : List OperatorBaseSkill
  trust_bonus : OperatorTrustAttributes
  file : OperatorFile
  deriving DecidableEq

/-- `CharacterTableEntry` (`format/character_table.rs` lines 15-51). -/
structure CharacterTableEntry where
  name : String
  potential_item_id : Option String
  nation_id : Option String
  group_id : Option String
  team_id : Option String
  display_number : Option String
  appellation : Option String
  position : CharacterTablePosition
  recruitment_tags : List String
  is_unobtainable : Bool
  rarity : ℕ
  profession : CharacterTableProfession
  sub_profession : CharacterTableSubProfession
  phases : List CharacterTablePhase
  skills : List CharacterTableSkill
  talents : List CharacterTableTalent
  potential_ranks : List CharacterTablePotentialRank
  favor_key_frames : Option (CharacterTableKeyFrame × CharacterTableKeyFrame)
  deriving DecidableEq

/-- `CharacterTableEntry::into_operator`
(`format/character_table.rs` lines 53-111).  The two `&mut` side tables are
threaded explicitly: the result carries the (possibly drained) handbook and
equipment tables alongside the optional operator, and an early `?`-return
keeps whatever draining already happened (none of the gates before the
module step mutate, so they return the tables unchanged). -/
def CharacterTableEntry.into_operator (c : CharacterTableEntry) (id : String)
    (building_data : BuildingData) (skill_table : SkillTable)
    (handbook_info_table : HandbookInfoTable) (equip_table : EquipTable) :
    Option Operator × HandbookInfoTable × EquipTable :=
  let fail := fun (hb : HandbookInfoTable) (et : EquipTable) =>
    ((none : Option Operator), hb, et)
  if c.is_unobtainable then fail handbook_info_table equip_table else
  match c.display_number with
  | none => fail handbook_info_table equip_table
  | some display_number =>
  match c.profession.into_profession with
  | none => fail handbook_info_table equip_table
  | some profession =>
  match c.sub_profession.into_sub_profession with
  | none => fail handbook_info_table equip_table
  | some sub_profession =>
  match c.position.into_position with
  | none => fail handbook_info_table equip_table
  | some position =>
  match c.phases.map CharacterTablePhase.into_operator_promotion with
  | [] => fail handbook_info_table equip_table
  | promotion_none :: promotions_rest =>
  let promotion_elite1 := promotions_rest.head?
  let promotion_elite2 := (promotions_rest.drop 1).head?
  let potential := recollect c.potential_ranks
    CharacterTablePotentialRank.into_operator_potential
  match recollect_maybe c.skills
    (fun character_table_skill =>
      character_table_skill.into_operator_skill skill_table) with
  | none => fail handbook_info_table equip_table
  | some skills =>
  match recollect_maybe c.talents CharacterTableTalent.into_operator_talent with
  | none => fail handbook_info_table equip_table
  | some talents =>
  let (modules?, equip_table) := equip_table.take_operator_modules id
  let modules := modules?.getD []
  let base_skills := building_data.get_operator_base_skill id
  let (file?, handbook_info_table) := handbook_info_table.take_operator_file id
  match file? with
  | none => fail handbook_info_table equip_table
  | some file =>
  (some
    { id := id
      name := c.name
      nation_id := c.nation_id
      group_id := c.group_id
      team_id := c.team_id
      display_number := display_number
      position := position
      appellation := c.appellation
      recruitment_tags := c.recruitment_tags
      rarity := c.rarity + 1
      profession := profession
      sub_profession := sub_profession
      promotions :=
        { none := promotion_none
          elite1 := promotion_elite1
          elite2 := promotion_elite2 }
      potential_item_id := c.potential_item_id
      potential := potential
      skills := skills
      talents := talents
      modules := modules
      base_skills := base_skills
      trust_bonus :=
        match c.favor_key_frames with
        | some (_, keyframe) => keyframe.into_operator_trust_attributes
        | none => OperatorTrustAttributes.default
      file := file },
    handbook_info_table, equip_table)

/-! ## Assembly loops

`DataFiles::into_game_data` builds the operator map with one `into_operator`
call per character-table entry, each call draining the shared side tables.
The two folds below expose that per-entity loop for the side table claims:
they run the `take` of each entity in turn on the threaded table and record
which entity attached which side records. -/

/-- Fold `take_operator_file` over a list of entity ids, recording each
attached handbook file under the id that consumed it. -/
def assembleFiles : List String → HandbookInfoTable →
    List (String × OperatorFile)
  | [], _ => []
  | id :: ids, t =>
    match t.take_operator_file id with
    | (some f, t') => (id, f) :: assembleFiles ids t'
    | (none, t') => assembleFiles ids t'

/-- Fold `take_operator_modules` over a list of entity ids, recording each
attached module list under the id that consumed it (a failed take attaches
nothing: `into_operator` defaults it to the empty list). -/
def assembleModules : List String → EquipTable →
    List (String × List OperatorModule)
  | [], _ => []
  | id :: ids, t =>
    match t.take_operator_modules id with
    | (some ms, t') => (id, ms) :: assembleModules ids t'
    | (none, t') => assembleModules ids t'

/-! ## Concrete sample data

Inputs used by the witness and counterexample theorems below. -/

/-- A sample event: opens at 0, levels close at 10, shop closes at 20. -/
def sampleEvent : Event :=
  { id := "act1", name := "E", event_type := .sideStory, open_time := 0,
    close_time := 10, close_time_rewards := 20, is_rerun := false }

/-- A sample banner: opens at 0, closes at 10. -/
def sampleBanner : HeadhuntingBanner :=
  { id := "pool1", name := "B", summary := "", index := 0, open_time := 0,
    close_time := 10, item_id := none, banner_type := .normal }

/-- All-zero promotion attribute keyframe at a given level with given
hp/atk/def. -/
def mkAttributes (level max_hp atk def_ : ℕ) : OperatorPromotionAttributes :=
  { level := level, max_hp := max_hp, atk := atk, def_ := def_,
    magic_resistance := 0, deployment_cost := 11, block_count := 1,
    move_speed := 1, attack_speed := 100, base_attack_time := 1,
    redeploy_time := 70, hp_recovery_per_sec := 0, sp_recovery_per_sec := 1,
    max_deploy_count := 1, max_deck_stack_count := 0, taunt_level := 0,
    is_stun_immune := false, is_silence_immune := false,
    is_sleep_immune := false, is_frozen_immune := false }

/-- A sample promotion tier: levels 1-30, the spec's §8 sample stat vector
(571/238/36 at level 1, 952/340/62 at level 30). -/
def samplePromotion : OperatorPromotion :=
  { attack_range_id := none
    min_attributes := mkAttributes 1 571 238 36
    max_attributes := mkAttributes 30 952 340 62
    max_level := 30
    upgrade_cost := [] }

/-- A sample trust bonus curve. -/
def sampleTrust : OperatorTrustAttributes :=
  { max_hp := 100, atk := 50, def_ := 30 }

/-- A minimal handbook entry for entity `cid`. -/
def mkHandbookEntry (cid : String) : HandbookInfoTableEntry :=
  { char_id := cid, illustrator_name := "a", story_entries := [] }

/-- A sample handbook table holding files for two entities. -/
def sampleHandbook : HandbookInfoTable :=
  { handbook_dict := [("op1", mkHandbookEntry "op1"), ("op2", mkHandbookEntry "op2")] }

/-- A minimal equipment record with the given id and mission ids. -/
def mkEquip (eid : String) (missions : List String) : EquipTableEquip :=
  { id := eid, name := "m", description := "d", unlock_phase := .elite2,
    unlock_level := 60, unlock_trust_points := 100, mission_list := missions,
    item_cost := none }

/-- A sample equipment table: operator `op1` has a reserved default module
slot `d1` and one real module `m1` with one resolvable mission. -/
def sampleEquipTable : EquipTable :=
  { equip_list := [("m1", mkEquip "m1" ["ms1"])]
    mission_list := [("ms1", { description := "do", sort := 1 })]
    character_equip_list := [("op1", ["d1", "m1"])] }

/-- An equipment table whose only real module references a mission id that is
absent from the mission table. -/
def badMissionEquipTable : EquipTable :=
  { equip_list := [("m1", mkEquip "m1" ["missing"])]
    mission_list := [("ms1", { description := "do", sort := 1 })]
    character_equip_list := [("op1", ["d1", "m1"])] }

/-- A skill-table level carrying no description (so no template rendering
happens) with a fixed name and activation data. -/
def sampleSkillLevel : SkillTableLevel :=
  { name := "S", range_id := none, description := none, skill_type := .manual,
    sp_data := { sp_type := .autoRecovery, max_charge_time := 1, sp_cost := 10,
                 init_sp := 0, increment := 1 },
    prefab_key := none, duration := 0, blackboard := [] }

/-- A skill-table entry with 8 identical levels: one more than the 7 base
levels, but not the 3 extra levels mastery needs. -/
def eightLevelEntry : SkillTableEntry :=
  { levels := List.replicate 8 sampleSkillLevel }

/-- A skill-table entry with only 6 levels. -/
def sixLevelEntry : SkillTableEntry :=
  { levels := List.replicate 6 sampleSkillLevel }

/-- A character skill referencing `sk1` that carries mastery upgrade data. -/
def sampleCharSkill : CharacterTableSkill :=
  { id := some "sk1"
    override_prefab_key := none
    mastery_upgrades := some (List.replicate 3
      { unlock_condition := { phase := .phase2, level := 90 },
        level_up_time := 3, level_up_cost := [] })
    unlock_condition := { phase := .phase0, level := 1 } }

/-- A raw keyframe data record with the given hp/atk/def and fixed other
fields. -/
def mkKeyFrameData (max_hp atk def_ : ℕ) : CharacterTableKeyFrameData :=
  { max_hp := max_hp, atk := atk, def_ := def_, magic_resistance := 0,
    cost := 11, block_count := 1, move_speed := 1, attack_speed := 100,
    base_attack_time := 1, respawn_time := 70, hp_recovery_per_sec := 0,
    sp_recovery_per_sec := 1, max_deploy_count := 1,
    max_deck_stack_count := 0, taunt_level := 0, is_stun_immune := false,
    is_silence_immune := false, is_sleep_immune := false,
    is_frozen_immune := false }

/-- A one-tier stat phase for the sample character. -/
def sampleCharPhase : CharacterTablePhase :=
  { range_id := none
    max_level := 30
    attributes_key_frames :=
      ({ level := 1, data := mkKeyFrameData 571 238 36 },
       { level := 30, data := mkKeyFrameData 952 340 62 })
    upgrade_cost := [] }

/-- A character-table entry that resolves except for whatever its single
skill reference decides: obtainable, all enum fields mapped, one stat tier,
no talents or potentials. -/
def sampleChar : CharacterTableEntry :=
  { name := "Op", potential_item_id := none, nation_id := none,
    group_id := none, team_id := none, display_number := some "X1",
    appellation := none, position := .melee, recruitment_tags := [],
    is_unobtainable := false, rarity := 4, profession := .caster,
    sub_profession := .coreCaster, phases := [sampleCharPhase],
    skills := [sampleCharSkill], talents := [], potential_ranks := [],
    favor_key_frames := none }

/-- An empty building-data table. -/
def emptyBuildingData : BuildingData :=
  { chars := [], buffs := [] }

/-- A handbook table holding a file for the sample character `op1`. -/
def op1Handbook : HandbookInfoTable :=
  { handbook_dict := [("op1", mkHandbookEntry "op1")] }

/-- A skill table resolving `sk1` to exactly 7 identical levels. -/
def sevenLevelSkillTable : SkillTable :=
  [("sk1", { levels := List.replicate 7 sampleSkillLevel })]

/-- An equipment table with no entries at all. -/
def emptyEquipTable : EquipTable :=
  { equip_list := [], mission_list := [], character_equip_list := [] }

/-! ## Helper lemmas -/

theorem roundTiesAway_zero : roundTiesAway 0 = 0 := by
  unfold roundTiesAway
  norm_num

theorem roundTiesAway_natCast (n : ℕ) : roundTiesAway (n : ℚ) = n := by
  unfold roundTiesAway
  rw [if_pos (by positivity)]
  rw [show ((n : ℚ) + 1 / 2) = ((n : ℤ) : ℚ) + (1 / 2 : ℚ) by push_cast; ring]
  rw [Int.floor_int_add]
  norm_num

theorem roundTiesAway_mono {x y : ℚ} (h : x ≤ y) :
    roundTiesAway x ≤ roundTiesAway y := by
  unfold roundTiesAway
  by_cases hx : 0 ≤ x <;> by_cases hy : 0 ≤ y <;>
    simp only [hx, hy, if_true, if_false, if_pos, if_neg, not_false_iff]
  · exact Int.floor_le_floor (by linarith)
  · linarith
  · have h1 : 0 ≤ ⌊-x + 1 / 2⌋ := Int.floor_nonneg.mpr (by linarith)
    have h2 : 0 ≤ ⌊y + 1 / 2⌋ := Int.floor_nonneg.mpr (by linarith)
    omega
  · have := Int.floor_le_floor (α := ℚ) (show -y + 1 / 2 ≤ -x + 1 / 2 by linarith)
    omega

theorem lerp_u32_zero (x : ℕ) (t : ℚ) :
    lerp_u32 0 x t = (roundTiesAway ((x : ℚ) * t)).toNat := by
  unfold lerp_u32 lerp_f32
  norm_num

/-! ## Claim theorems -/

/-- **C10**: for every `Event` with `open_time ≤ close_time_rewards` and every
instant `now`, exactly one of `is_past`, `is_current`, `is_future` returns
`true`; likewise for every `HeadhuntingBanner` with `open_time ≤ close_time`;
and without that time-ordering precondition `is_past` and `is_future` can
both return `true` at the same instant. -/
theorem tense_trichotomy :
    (∀ (e : Event) (now : ℤ), e.open_time ≤ e.close_time_rewards →
      (e.is_past now = true ∨ e.is_current now = true ∨
        e.is_future now = true) ∧
      ¬(e.is_past now = true ∧ e.is_current now = true) ∧
      ¬(e.is_past now = true ∧ e.is_future now = true) ∧
      ¬(e.is_current now = true ∧ e.is_future now = true)) ∧
    (∀ (b : HeadhuntingBanner) (now : ℤ), b.open_time ≤ b.close_time →
      (b.is_past now = true ∨ b.is_current now = true ∨
        b.is_future now = true) ∧
      ¬(b.is_past now = true ∧ b.is_current now = true) ∧
      ¬(b.is_past now = true ∧ b.is_future now = true) ∧
      ¬(b.is_current now = true ∧ b.is_future now = true)) ∧
    (∃ (e : Event) (now : ℤ), e.is_past now = true ∧ e.is_future now = true) := by
  refine ⟨fun e now h => ?_, fun b now h => ?_, ?_⟩
  · simp only [Event.is_past, Event.is_current, Event.is_future,
      Bool.and_eq_true, decide_eq_true_eq, not_and]
    omega
  · simp only [HeadhuntingBanner.is_past, HeadhuntingBanner.is_current,
      HeadhuntingBanner.is_future, Bool.and_eq_true, decide_eq_true_eq,
      not_and]
    omega
  · exact ⟨{ sampleEvent with open_time := 10, close_time_rewards := 0 }, 5,
      by decide⟩

/-- Witness for C10 at a concrete event and banner. -/
theorem tense_trichotomy_witness :
    (sampleEvent.is_past 25 = true ∨ sampleEvent.is_current 25 = true ∨
      sampleEvent.is_future 25 = true) ∧
    (sampleBanner.is_past 5 = true ∨ sampleBanner.is_current 5 = true ∨
      sampleBanner.is_future 5 = true) :=
  ⟨(tense_trichotomy.1 sampleEvent 25 (by decide)).1,
   (tense_trichotomy.2.1 sampleBanner 5 (by decide)).1⟩

/-- **C1**: the assembled banner vector and event vector are each sorted
ascending by open time — every element's `open_time` is at most the next
element's. -/
theorem banners_events_sorted :
    (∀ pools : List GachaTableGachaPool,
      List.Chain' bannerLE (assembleHeadhuntingBanners pools)) ∧
    (∀ t : ActivityTable, List.Chain' eventLE (assembleEvents t)) :=
  ⟨fun _ => (List.sorted_insertionSort bannerLE _).chain',
   fun _ => (List.sorted_insertionSort eventLE _).chain'⟩

/-- **C3**: `get_level_attributes` clamps the requested level to
`[min_attributes.level, max_attributes.level]` and normalises it to a `t` in
`[0, 1]`; exactly `max_hp`, `atk` and `def` are linearly interpolated between
the keyframes and rounded to the nearest integer, every other field is copied
verbatim from the min keyframe, and the `level` field is the requested
level. -/
theorem get_level_attributes_interpolation :
    ∀ (p : OperatorPromotion) (level : ℕ),
      p.min_attributes.level < p.max_attributes.level →
      (0 ≤ p.level_t level ∧ p.level_t level ≤ 1) ∧
      p.level_t level =
        ((clampNat level p.min_attributes.level p.max_attributes.level : ℚ) -
            (p.min_attributes.level : ℚ)) /
          ((p.max_attributes.level : ℚ) - (p.min_attributes.level : ℚ)) ∧
      p.get_level_attributes level =
        { p.min_attributes with
          level := level
          max_hp := (roundTiesAway ((p.min_attributes.max_hp : ℚ) +
            ((p.max_attributes.max_hp : ℚ) - (p.min_attributes.max_hp : ℚ)) *
              p.level_t level)).toNat
          atk := (roundTiesAway ((p.min_attributes.atk : ℚ) +
            ((p.max_attributes.atk : ℚ) - (p.min_attributes.atk : ℚ)) *
              p.level_t level)).toNat
          def_ := (roundTiesAway ((p.min_attributes.def_ : ℚ) +
            ((p.max_attributes.def_ : ℚ) - (p.min_attributes.def_ : ℚ)) *
              p.level_t level)).toNat } := by
  intro p level h
  refine ⟨?_, rfl, rfl⟩
  set a := p.min_attributes.level with ha
  set b := p.max_attributes.level with hb
  have hab : (a : ℚ) < (b : ℚ) := by exact_mod_cast h
  have hc1 : a ≤ clampNat level a b := le_max_left _ _
  have hc2 : clampNat level a b ≤ b :=
    max_le (Nat.le_of_lt h) (min_le_right _ _)
  have hc1q : (a : ℚ) ≤ (clampNat level a b : ℚ) := by exact_mod_cast hc1
  have hc2q : (clampNat level a b : ℚ) ≤ (b : ℚ) := by exact_mod_cast hc2
  unfold OperatorPromotion.level_t
  constructor
  · exact div_nonneg (by linarith) (by linarith)
  · rw [div_le_one (by linarith)]
    linarith

/-- Witness for C3 at the sample promotion (min level 1, max level 30) and
the spec's sample level 15. -/
theorem get_level_attributes_interpolation_witness :
    (0 ≤ samplePromotion.level_t 15 ∧ samplePromotion.level_t 15 ≤ 1) ∧
    (samplePromotion.get_level_attributes 15).max_hp = 755 :=
  ⟨(get_level_attributes_interpolation samplePromotion 15 (by decide)).1,
   by
    simp only [samplePromotion, mkAttributes,
      OperatorPromotion.get_level_attributes,
      OperatorPromotion.lerp_attribute_u32, OperatorPromotion.level_t,
      lerp_u32, lerp_f32, clampNat, roundTiesAway]
    norm_num
    decide⟩

/-- **C5**: the trust bonus is `round(bonus_max * t)` per field with
`t = min(trust, 200) / 200`; it is the zero bonus at trust 0, the full stored
bonus for every trust ≥ 200, and each field is monotone non-decreasing in
trust. -/
theorem trust_bonus_curve :
    ∀ a : OperatorTrustAttributes,
      (∀ trust, a.get_trust_level_attributes trust =
        { max_hp := (roundTiesAway ((a.max_hp : ℚ) *
            ((min trust 200 : ℕ) : ℚ) / 200)).toNat
          atk := (roundTiesAway ((a.atk : ℚ) *
            ((min trust 200 : ℕ) : ℚ) / 200)).toNat
          def_ := (roundTiesAway ((a.def_ : ℚ) *
            ((min trust 200 : ℕ) : ℚ) / 200)).toNat }) ∧
      a.get_trust_level_attributes 0 = OperatorTrustAttributes.default ∧
      (∀ trust, 200 ≤ trust → a.get_trust_level_attributes trust = a) ∧
      (∀ t1 t2, t1 ≤ t2 →
        (a.get_trust_level_attributes t1).max_hp ≤
          (a.get_trust_level_attributes t2).max_hp ∧
        (a.get_trust_level_attributes t1).atk ≤
          (a.get_trust_level_attributes t2).atk ∧
        (a.get_trust_level_attributes t1).def_ ≤
          (a.get_trust_level_attributes t2).def_) := by
  intro a
  have hfields : ∀ trust, a.get_trust_level_attributes trust =
      { max_hp := (roundTiesAway ((a.max_hp : ℚ) *
          ((min trust 200 : ℕ) : ℚ) / 200)).toNat
        atk := (roundTiesAway ((a.atk : ℚ) *
          ((min trust 200 : ℕ) : ℚ) / 200)).toNat
        def_ := (roundTiesAway ((a.def_ : ℚ) *
          ((min trust 200 : ℕ) : ℚ) / 200)).toNat } := by
    intro trust
    unfold OperatorTrustAttributes.get_trust_level_attributes
    simp only [lerp_u32_zero, OperatorTrustAttributes.mk.injEq]
    refine ⟨?_, ?_, ?_⟩ <;> · congr 2; ring
  refine ⟨hfields, ?_, ?_, ?_⟩
  · rw [hfields 0]
    simp [roundTiesAway_zero, OperatorTrustAttributes.default]
  · intro trust htrust
    rw [hfields trust]
    have hm : min trust 200 = 200 := min_eq_right htrust
    rw [hm]
    have : ∀ x : ℕ, ((roundTiesAway ((x : ℚ) * ((200 : ℕ) : ℚ) / 200)).toNat) = x := by
      intro x
      have hx : (x : ℚ) * ((200 : ℕ) : ℚ) / 200 = (x : ℚ) := by push_cast; ring
      rw [hx, roundTiesAway_natCast]
      exact Int.toNat_natCast x
    simp only [this]
  · intro t1 t2 h12
    rw [hfields t1, hfields t2]
    have hmin : ((min t1 200 : ℕ) : ℚ) ≤ ((min t2 200 : ℕ) : ℚ) := by
      exact_mod_cast min_le_min h12 (le_refl 200)
    refine ⟨?_, ?_, ?_⟩ <;>
      · exact Int.toNat_le_toNat (roundTiesAway_mono (by gcongr))

/-- Witness for C5 at the sample trust curve. -/
theorem trust_bonus_curve_witness :
    sampleTrust.get_trust_level_attributes 0 = OperatorTrustAttributes.default ∧
    sampleTrust.get_trust_level_attributes 250 = sampleTrust ∧
    (sampleTrust.get_trust_level_attributes 77).max_hp ≤
      (sampleTrust.get_trust_level_attributes 103).max_hp :=
  ⟨(trust_bonus_curve sampleTrust).2.1,
   (trust_bonus_curve sampleTrust).2.2.1 250 (by decide),
   ((trust_bonus_curve sampleTrust).2.2.2 77 103 (by decide)).1⟩

/-! ### Tag stripping (C7) -/

theorem stripTagsFuel_no_match :
    ∀ (fuel : ℕ) (cs : List Char), hasTagMatch cs = false →
      cs.length ≤ fuel → stripTagsFuel fuel cs = cs := by
  intro fuel
  induction fuel with
  | zero => intro cs _ _; rfl
  | succ n ih =>
    intro cs hm hl
    cases cs with
    | nil => rfl
    | cons c cs =>
      rw [hasTagMatch, Bool.or_eq_false_iff] at hm
      have hnone : tagMatchLen (c :: cs) = none :=
        Option.not_isSome_iff_eq_none.mp (by simp [hm.1])
      simp only [stripTagsFuel, hnone]
      rw [ih cs hm.2 (by simpa using hl)]

theorem stripTagsAux_no_match {cs : List Char} (h : hasTagMatch cs = false) :
    stripTagsAux cs = cs :=
  stripTagsFuel_no_match _ _ h (le_refl _)

/-- **C7 counterexample**: `strip_tags` is not idempotent — deleting the inner
tag of `"<<a>b>"` concatenates the leftovers into a fresh tag token `"<b>"`
that a second pass removes. -/
theorem strip_tags_not_idempotent_cex :
    strip_tags (strip_tags "<<a>b>") ≠ strip_tags "<<a>b>" := by decide

/-- **C7 (amended)**: `strip_tags` is a no-op on any string without a tag
token, hence idempotent on every input whose first-pass output contains no
tag token (tag deletion can concatenate leftovers into a new token, in which
case a second pass strips further). -/
theorem strip_tags_idempotent_on_clean :
    ∀ s : String, hasTagMatch (strip_tags s).data = false →
      strip_tags (strip_tags s) = strip_tags s := by
  intro s h
  show String.mk (stripTagsAux (strip_tags s).data) = strip_tags s
  rw [stripTagsAux_no_match h]

/-- Witness for the amended C7 at a concrete tagged string. -/
theorem strip_tags_idempotent_on_clean_witness :
    hasTagMatch (strip_tags "a<i>b</>c").data = false ∧
    strip_tags (strip_tags "a<i>b</>c") = strip_tags "a<i>b</>c" :=
  ⟨by decide, strip_tags_idempotent_on_clean _ (by decide)⟩

/-! ### Placeholder formatting (C6) -/

theorem popHeadIf_eq_drop (c : Char) (l : List Char) :
    ∃ k ≤ 1, popHeadIf c l = l.drop k := by
  cases l with
  | nil => exact ⟨0, by norm_num, rfl⟩
  | cons x rest =>
    by_cases h : x = c
    · exact ⟨1, by norm_num, by simp [popHeadIf, h]⟩
    · exact ⟨0, by norm_num, by simp [popHeadIf, h]⟩

theorem rStripRevAux_eq_drop (rcs : List Char) :
    ∃ k ≤ 3, rStripRevAux rcs = rcs.drop k := by
  obtain ⟨k1, hk1, h1⟩ := popHeadIf_eq_drop '0' rcs
  obtain ⟨k2, hk2, h2⟩ := popHeadIf_eq_drop '0' (popHeadIf '0' rcs)
  obtain ⟨k3, hk3, h3⟩ := popHeadIf_eq_drop '.' (popHeadIf '0' (popHeadIf '0' rcs))
  refine ⟨k1 + k2 + k3, by omega, ?_⟩
  rw [rStripRevAux, h3, h2, h1, List.drop_drop, List.drop_drop]
  ring_nf

/-- `rStrip` removes at most three characters, all from the tail: its output
is the prefix of its input that drops the last `k ≤ 3` characters. -/
theorem rStrip_take (s : String) :
    ∃ k ≤ 3, (rStrip s).data = s.data.take (s.data.length - k) := by
  obtain ⟨k, hk, h⟩ := rStripRevAux_eq_drop s.data.reverse
  refine ⟨k, hk, ?_⟩
  show (rStripRevAux s.data.reverse).reverse = _
  rw [h, ← List.rdrop_eq_reverse_drop_reverse, List.rdrop]

theorem rStrip_percent (s : String) : rStrip (s ++ "%") = s ++ "%" := by
  apply String.ext
  show (rStripRevAux (s ++ "%").data.reverse).reverse = (s ++ "%").data
  rw [String.data_append]
  show (rStripRevAux ((s.data ++ String.data "%").reverse)).reverse =
    s.data ++ String.data "%"
  rw [show String.data "%" = ['%'] from rfl, List.reverse_append]
  simp only [List.reverse_cons, List.reverse_nil, List.nil_append,
    List.singleton_append]
  rw [show rStripRevAux ('%' :: s.data.reverse) = '%' :: s.data.reverse by
    simp [rStripRevAux, popHeadIf]]
  simp

/-- **C6 counterexample**: the value `0.20` with the decimal-percent marker
renders `"20.00%"`, not `"20%"` (the zero-stripping helper runs after the
`'%'` sign is appended, so it never strips), and the decimal rendering of
`1.0` strips three characters (`"1.00"` → `"1"`), not at most two. -/
theorem apply_formatting_cex :
    apply_formatting (1 / 5 : ℚ) false .decimalPercent = "20.00%" ∧
    "20.00%" ≠ "20%" ∧
    formatFixed (1 : ℚ) 2 = "1.00" ∧
    apply_formatting (1 : ℚ) false .decimal = "1" ∧
    (formatFixed (1 : ℚ) 2).data.length -
      (rStrip (formatFixed (1 : ℚ) 2)).data.length = 3 := by
  have h20 : (1 / 5 : ℚ) * 100 = 20 := by norm_num
  have hf20 : formatFixed ((1 / 5 : ℚ) * 100) 2 = "20.00" := by
    rw [h20]
    rw [formatFixed, if_neg (by norm_num)]
    rw [formatFixedNonneg]
    rw [show roundTiesEven ((20 : ℚ) * 10 ^ 2) = 2000 by
      rw [roundTiesEven]; norm_num]
    norm_num [padZeros]
    decide
  have hf1 : formatFixed (1 : ℚ) 2 = "1.00" := by
    rw [formatFixed, if_neg (by norm_num)]
    rw [formatFixedNonneg]
    rw [show roundTiesEven ((1 : ℚ) * 10 ^ 2) = 100 by
      rw [roundTiesEven]; norm_num]
    norm_num [padZeros]
    decide
  refine ⟨?_, by decide, hf1, ?_, ?_⟩
  · show rStrip (formatFixed ((1 / 5 : ℚ) * 100) 2 ++ "%") = "20.00%"
    rw [hf20, rStrip_percent]
    rfl
  · show rStrip (formatFixed (1 : ℚ) 2) = "1"
    rw [hf1]
    decide
  · rw [hf1]
    rw [show rStrip "1.00" = "1" by decide]
    decide

/-- **C6 (amended)**: formatting first negates the value when the negative
flag was detected, then renders per the marker (percent markers multiply by
100, decimal markers use 2 decimal places); the trailing-zero/point strip
removes at most three tail characters (two zeros then a point) and is a no-op
for the decimal-percent marker because the `'%'` sign is appended first; in
particular `0.20` with the decimal-percent marker renders `"20.00%"` and
`1.0` with the decimal marker renders `"1"`. -/
theorem apply_formatting_behaviour :
    (∀ (v : ℚ) (suffix : FormattingSuffix),
      apply_formatting v true suffix = apply_formatting (-v) false suffix) ∧
    (∀ v : ℚ, apply_formatting v false .decimalPercent =
      formatFixed (v * 100) 2 ++ "%") ∧
    (∀ v : ℚ, apply_formatting v false .integerPercent =
      formatFixed (v * 100) 0 ++ "%") ∧
    (∀ v : ℚ, apply_formatting v false .decimal = rStrip (formatFixed v 2)) ∧
    (∀ v : ℚ, apply_formatting v false .integer = formatFixed v 0) ∧
    (∀ s : String, ∃ k ≤ 3,
      (rStrip s).data = s.data.take (s.data.length - k)) ∧
    apply_formatting (1 / 5 : ℚ) false .decimalPercent = "20.00%" ∧
    apply_formatting (1 : ℚ) false .decimal = "1" := by
  have h20 : (1 / 5 : ℚ) * 100 = 20 := by norm_num
  refine ⟨fun v suffix => rfl, fun v => ?_, fun v => rfl, fun v => rfl,
    fun v => rfl, rStrip_take, ?_, ?_⟩
  · show rStrip (formatFixed (v * 100) 2 ++ "%") = formatFixed (v * 100) 2 ++ "%"
    exact rStrip_percent _
  · show rStrip (formatFixed ((1 / 5 : ℚ) * 100) 2 ++ "%") = "20.00%"
    rw [show formatFixed ((1 / 5 : ℚ) * 100) 2 = "20.00" by
      rw [h20, formatFixed, if_neg (by norm_num), formatFixedNonneg]
      rw [show roundTiesEven ((20 : ℚ) * 10 ^ 2) = 2000 by
        rw [roundTiesEven]; norm_num]
      norm_num [padZeros]
      decide]
    rw [rStrip_percent]
    rfl
  · show rStrip (formatFixed (1 : ℚ) 2) = "1"
    rw [show formatFixed (1 : ℚ) 2 = "1.00" by
      rw [formatFixed, if_neg (by norm_num), formatFixedNonneg]
      rw [show roundTiesEven ((1 : ℚ) * 10 ^ 2) = 100 by
        rw [roundTiesEven]; norm_num]
      norm_num [padZeros]
      decide]
    decide

/-! ### Module slot 0 (C8) -/

/-- **C8**: `take_operator_modules` skips the first element of the
character's raw equipment id list before resolving: the result is identical
whatever occupies slot 0 — the first entry is never resolved into the module
list. -/
theorem take_operator_modules_skips_slot0 :
    ∀ (el : List (String × EquipTableEquip))
      (ml : List (String × EquipTableMission))
      (ce : List (String × List String)) (id x y : String)
      (rest : List String),
      EquipTable.take_operator_modules
        { equip_list := el, mission_list := ml,
          character_equip_list := (id, x :: rest) :: ce } id =
      EquipTable.take_operator_modules
        { equip_list := el, mission_list := ml,
          character_equip_list := (id, y :: rest) :: ce } id := by
  intro el ml ce id x y rest
  simp [EquipTable.take_operator_modules, removeKey, List.lookup]

/-! ### Side-table drain invariant (C2) -/

theorem lookup_some_mem {α : Type} {l : List (String × α)} {k : String} {v : α}
    (h : List.lookup k l = some v) : (k, v) ∈ l := by
  induction l with
  | nil => simp [List.lookup] at h
  | cons p l ih =>
    obtain ⟨k2, v2⟩ := p
    rw [List.lookup] at h
    cases hbk : k == k2 with
    | true =>
      rw [hbk] at h
      simp only [Option.some.injEq] at h
      exact List.mem_cons.mpr (Or.inl (by rw [eq_of_beq hbk, h]))
    | false =>
      rw [hbk] at h
      exact List.mem_cons.mpr (Or.inr (ih h))

theorem lookup_some_key_mem {α : Type} {l : List (String × α)} {k : String}
    {v : α} (h : List.lookup k l = some v) : k ∈ l.map Prod.fst :=
  List.mem_map.mpr ⟨(k, v), lookup_some_mem h, rfl⟩

theorem keys_removeKey_subset {α : Type} (t : List (String × α)) (id : String) :
    (removeKey t id).map Prod.fst ⊆ t.map Prod.fst :=
  List.map_subset _ (List.filter_sublist _).subset

theorem not_mem_keys_removeKey {α : Type} (t : List (String × α)) (id : String) :
    id ∉ (removeKey t id).map Prod.fst := by
  intro h
  obtain ⟨⟨k, v⟩, hm, hk⟩ := List.mem_map.mp h
  rw [removeKey, List.mem_filter] at hm
  have := of_decide_eq_true hm.2
  exact this hk

theorem assembleFiles_key_mem :
    ∀ (ids : List String) (t : HandbookInfoTable) (p : String × OperatorFile),
      p ∈ assembleFiles ids t → p.1 ∈ t.handbook_dict.map Prod.fst := by
  intro ids
  induction ids with
  | nil => intro t p h; simp [assembleFiles] at h
  | cons id ids ih =>
    intro t p h
    cases hl : List.lookup id t.handbook_dict with
    | none =>
      simp only [assembleFiles, HandbookInfoTable.take_operator_file, hl,
        Option.map_none'] at h
      exact keys_removeKey_subset _ _ (ih _ _ h)
    | some e =>
      simp only [assembleFiles, HandbookInfoTable.take_operator_file, hl,
        Option.map_some'] at h
      rcases List.mem_cons.mp h with h1 | h2
      · rw [h1]
        exact lookup_some_key_mem hl
      · exact keys_removeKey_subset _ _ (ih _ _ h2)

theorem assembleFiles_keys_nodup :
    ∀ (ids : List String) (t : HandbookInfoTable),
      ((assembleFiles ids t).map Prod.fst).Nodup := by
  intro ids
  induction ids with
  | nil => intro t; simp [assembleFiles]
  | cons id ids ih =>
    intro t
    cases hl : List.lookup id t.handbook_dict with
    | none =>
      simp only [assembleFiles, HandbookInfoTable.take_operator_file, hl,
        Option.map_none']
      exact ih _
    | some e =>
      simp only [assembleFiles, HandbookInfoTable.take_operator_file, hl,
        Option.map_some']
      rw [List.map_cons]
      refine List.nodup_cons.mpr ⟨?_, ih _⟩
      intro hmem
      obtain ⟨p, hp, hp1⟩ := List.mem_map.mp hmem
      have := assembleFiles_key_mem ids _ p hp
      rw [hp1] at this
      exact not_mem_keys_removeKey t.handbook_dict id this

/-- Every equipment record carries its own map key (`equipDict` is keyed by
`uniEquipId`); the drain argument tracks records through this id. -/
def EquipListWF (el : List (String × EquipTableEquip)) : Prop :=
  ∀ p ∈ el, (p.2).id = p.1

theorem equipListWF_removeKey {el : List (String × EquipTableEquip)}
    {k : String} (h : EquipListWF el) : EquipListWF (removeKey el k) :=
  fun p hp => h p (List.mem_of_mem_filter hp)

theorem into_operator_module_id {e : EquipTableEquip}
    {ml : List (String × EquipTableMission)} {m : OperatorModule}
    (h : e.into_operator_module ml = some m) : m.id = e.id := by
  rw [EquipTableEquip.into_operator_module] at h
  obtain ⟨ms, _, hm⟩ := Option.map_eq_some'.mp h
  rw [← hm]

theorem takeModulesLoop_state (ml : List (String × EquipTableMission)) :
    ∀ (lst : List String) (el : List (String × EquipTableEquip)),
      (takeModulesLoop ml lst el).2.map Prod.fst ⊆ el.map Prod.fst ∧
      (EquipListWF el → EquipListWF (takeModulesLoop ml lst el).2) := by
  intro lst
  induction lst with
  | nil => intro el; exact ⟨fun a h => h, fun h => h⟩
  | cons eid rest ih =>
    intro el
    cases hl : List.lookup eid el with
    | none =>
      simp only [takeModulesLoop, hl]
      exact ⟨fun a h => h, fun h => h⟩
    | some e =>
      cases hm : e.into_operator_module ml with
      | none =>
        simp only [takeModulesLoop, hl, hm]
        exact ⟨keys_removeKey_subset _ _, fun h => equipListWF_removeKey h⟩
      | some m =>
        cases hloop : takeModulesLoop ml rest (removeKey el eid) with
        | mk res el2 =>
          have hih := ih (removeKey el eid)
          rw [hloop] at hih
          have hout : (takeModulesLoop ml (eid :: rest) el).2 = el2 := by
            simp only [takeModulesLoop, hl, hm, hloop]
            cases res <;> rfl
          rw [hout]
          exact ⟨fun a ha => keys_removeKey_subset _ _ (hih.1 ha),
            fun h => hih.2 (equipListWF_removeKey h)⟩

theorem takeModulesLoop_some (ml : List (String × EquipTableMission)) :
    ∀ (lst : List String) (el el2 : List (String × EquipTableEquip))
      (ms : List OperatorModule),
      EquipListWF el → takeModulesLoop ml lst el = (some ms, el2) →
      (ms.map (fun m => m.id)).Nodup ∧
      ∀ i ∈ ms.map (fun m => m.id),
        i ∈ el.map Prod.fst ∧ i ∉ el2.map Prod.fst := by
  intro lst
  induction lst with
  | nil =>
    intro el el2 ms _ h
    simp only [takeModulesLoop, Prod.mk.injEq, Option.some.injEq] at h
    obtain ⟨h1, h2⟩ := h
    subst h2
    rw [← h1]
    simp
  | cons eid rest ih =>
    intro el el2 ms hwf h
    cases hl : List.lookup eid el with
    | none =>
      simp [takeModulesLoop, hl] at h
    | some e =>
      cases hm : e.into_operator_module ml with
      | none =>
        simp [takeModulesLoop, hl, hm] at h
      | some m =>
        cases hloop : takeModulesLoop ml rest (removeKey el eid) with
        | mk res el3 =>
          cases res with
          | none =>
            simp [takeModulesLoop, hl, hm, hloop] at h
          | some ms2 =>
            simp only [takeModulesLoop, hl, hm, hloop, Prod.mk.injEq,
              Option.some.injEq] at h
            obtain ⟨h1, h2⟩ := h
            subst h2
            subst h1
            have hwf2 : EquipListWF (removeKey el eid) := equipListWF_removeKey hwf
            obtain ⟨hnd, hmem⟩ := ih (removeKey el eid) el3 ms2 hwf2 hloop
            have hmid : m.id = eid := by
              rw [into_operator_module_id hm]
              exact hwf (eid, e) (lookup_some_mem hl)
            have hstate := takeModulesLoop_state ml rest (removeKey el eid)
            rw [hloop] at hstate
            constructor
            · rw [List.map_cons]
              refine List.nodup_cons.mpr ⟨?_, hnd⟩
              intro hmm
              have := (hmem _ hmm).1
              rw [hmid] at this
              exact not_mem_keys_removeKey el eid this
            · intro i hi
              rw [List.map_cons] at hi
              rcases List.mem_cons.mp hi with h1 | h2
              · rw [h1, hmid]
                exact ⟨lookup_some_key_mem hl,
                  fun hc => not_mem_keys_removeKey el eid (hstate.1 hc)⟩
              · obtain ⟨ha, hb⟩ := hmem _ h2
                exact ⟨keys_removeKey_subset _ _ ha, hb⟩

theorem take_operator_modules_state (t : EquipTable) (id : String) :
    (t.take_operator_modules id).2.equip_list.map Prod.fst ⊆
      t.equip_list.map Prod.fst ∧
    (EquipListWF t.equip_list →
      EquipListWF (t.take_operator_modules id).2.equip_list) := by
  cases hc : List.lookup id t.character_equip_list with
  | none =>
    simp only [EquipTable.take_operator_modules, hc]
    exact ⟨fun a h => h, fun h => h⟩
  | some cl =>
    cases hloop : takeModulesLoop t.mission_list (cl.drop 1) t.equip_list with
    | mk res el2 =>
      have hstate := takeModulesLoop_state t.mission_list (cl.drop 1) t.equip_list
      rw [hloop] at hstate
      have hout : (t.take_operator_modules id).2.equip_list = el2 := by
        simp only [EquipTable.take_operator_modules, hc, hloop]
      rw [hout]
      exact hstate

theorem take_operator_modules_some {t : EquipTable} {id : String}
    {ms : List OperatorModule} {t2 : EquipTable}
    (hwf : EquipListWF t.equip_list)
    (h : t.take_operator_modules id = (some ms, t2)) :
    (ms.map (fun m => m.id)).Nodup ∧
    ∀ i ∈ ms.map (fun m => m.id),
      i ∈ t.equip_list.map Prod.fst ∧ i ∉ t2.equip_list.map Prod.fst := by
  cases hc : List.lookup id t.character_equip_list with
  | none =>
    simp [EquipTable.take_operator_modules, hc] at h
  | some cl =>
    cases hloop : takeModulesLoop t.mission_list (cl.drop 1) t.equip_list with
    | mk res el2 =>
      simp only [EquipTable.take_operator_modules, hc, hloop,
        Prod.mk.injEq] at h
      obtain ⟨h1, h2⟩ := h
      subst h1
      obtain ⟨hnd, hmem⟩ :=
        takeModulesLoop_some t.mission_list (cl.drop 1) t.equip_list el2 ms
          hwf hloop
      refine ⟨hnd, fun i hi => ?_⟩
      obtain ⟨ha, hb⟩ := hmem i hi
      rw [← h2]
      exact ⟨ha, hb⟩

theorem assembleModules_attached_mem :
    ∀ (ids : List String) (t : EquipTable),
      EquipListWF t.equip_list →
      ∀ i ∈ (assembleModules ids t).flatMap fun p => p.2.map fun m => m.id,
        i ∈ t.equip_list.map Prod.fst := by
  intro ids
  induction ids with
  | nil => intro t _ i hi; simp [assembleModules] at hi
  | cons id ids ih =>
    intro t hwf i hi
    cases h : t.take_operator_modules id with
    | mk res t2 =>
      have hstate := take_operator_modules_state t id
      rw [h] at hstate
      have hwf2 : EquipListWF t2.equip_list := hstate.2 hwf
      cases res with
      | none =>
        simp only [assembleModules, h] at hi
        exact hstate.1 (ih t2 hwf2 i hi)
      | some ms =>
        simp only [assembleModules, h] at hi
        rw [List.flatMap_cons] at hi
        rcases List.mem_append.mp hi with h1 | h2
        · exact ((take_operator_modules_some hwf h).2 i h1).1
        · exact hstate.1 (ih t2 hwf2 i h2)

/-- **C2**: the side tables are drained: folding `take_operator_file` over
any sequence of entity ids attaches each handbook record to at most one
entity (the list of consumed handbook keys has no duplicate), and folding
`take_operator_modules` attaches each equipment record to at most one entity
(the ids of all attached modules, across all entities, have no duplicate) —
once an entity's take removes a record, no later entity's take can attach
it. -/
theorem side_table_drain :
    ∀ (ids : List String) (hb : HandbookInfoTable) (et : EquipTable),
      (∀ p ∈ et.equip_list, (p.2).id = p.1) →
      ((assembleFiles ids hb).map Prod.fst).Nodup ∧
      ((assembleModules ids et).flatMap fun p => p.2.map fun m => m.id).Nodup := by
  intro ids hb et hwf
  refine ⟨assembleFiles_keys_nodup ids hb, ?_⟩
  clear hb
  induction ids generalizing et with
  | nil => simp [assembleModules]
  | cons id ids ih =>
    cases h : et.take_operator_modules id with
    | mk res t2 =>
      have hstate := take_operator_modules_state et id
      rw [h] at hstate
      have hwf2 : EquipListWF t2.equip_list := hstate.2 hwf
      cases res with
      | none =>
        simp only [assembleModules, h]
        exact ih t2 hwf2
      | some ms =>
        simp only [assembleModules, h, List.flatMap_cons]
        rw [List.nodup_append]
        obtain ⟨hnd, hmem⟩ := take_operator_modules_some hwf h
        refine ⟨hnd, ih t2 hwf2, fun i h1 h2 => ?_⟩
        exact (hmem i h1).2 (assembleModules_attached_mem ids t2 hwf2 i h2)

/-- Witness for C2: duplicate entity ids in the assembly order still attach
each handbook file and each module record at most once. -/
theorem side_table_drain_witness :
    ((assembleFiles ["op1", "op2", "op1"] sampleHandbook).map Prod.fst).Nodup ∧
    ((assembleModules ["op1", "op2", "op1"] sampleEquipTable).flatMap
      fun p => p.2.map fun m => m.id).Nodup :=
  side_table_drain ["op1", "op2", "op1"] sampleHandbook sampleEquipTable
    (by decide)

/-! ### Module failure propagation (C9) -/

theorem lookup_removeKey_ne {α : Type} {k k2 : String} (h : k ≠ k2)
    (l : List (String × α)) :
    List.lookup k (removeKey l k2) = List.lookup k l := by
  induction l with
  | nil => rfl
  | cons p t ih =>
    obtain ⟨a, b⟩ := p
    by_cases hak : a = k2
    · subst hak
      have hstep : removeKey ((a, b) :: t) a = removeKey t a := by
        simp [removeKey, List.filter_cons]
      rw [hstep, ih]
      simp [List.lookup_cons, beq_false_of_ne h]
    · have hstep : removeKey ((a, b) :: t) k2 = (a, b) :: removeKey t k2 := by
        simp [removeKey, List.filter_cons, hak]
      rw [hstep]
      by_cases hka : k = a
      · subst hka
        simp [List.lookup_cons]
      · simp only [List.lookup_cons, beq_false_of_ne hka]
        exact ih

theorem recollect_maybe_eq_none_of_mem {α β : Type} {l : List α} {x : α}
    {f : α → Option β} (hx : x ∈ l) (hf : f x = none) :
    recollect_maybe l f = none := by
  induction l with
  | nil => simp at hx
  | cons a t ih =>
    rcases List.mem_cons.mp hx with h | h
    · rw [recollect_maybe, ← h, hf]
    · rw [recollect_maybe]
      cases hfa : f a with
      | none => rfl
      | some y => rw [ih h]; rfl

theorem takeModulesLoop_fails (ml : List (String × EquipTableMission))
    {eid : String} {e : EquipTableEquip}
    (he : e.into_operator_module ml = none) :
    ∀ (lst : List String) (el : List (String × EquipTableEquip)),
      eid ∈ lst →
      (List.lookup eid el = none ∨ List.lookup eid el = some e) →
      (takeModulesLoop ml lst el).1 = none := by
  intro lst
  induction lst with
  | nil => intro el h; simp at h
  | cons a rest ih =>
    intro el hmem hP
    by_cases ha : a = eid
    · subst ha
      rcases hP with hP | hP
      · simp [takeModulesLoop, hP]
      · simp [takeModulesLoop, hP, he]
    · have hmem2 : eid ∈ rest := by
        rcases List.mem_cons.mp hmem with h | h
        · exact absurd h.symm ha
        · exact h
      cases hl : List.lookup a el with
      | none => simp [takeModulesLoop, hl]
      | some ea =>
        cases hme : ea.into_operator_module ml with
        | none => simp [takeModulesLoop, hl, hme]
        | some m =>
          have hP2 : List.lookup eid (removeKey el a) = none ∨
              List.lookup eid (removeKey el a) = some e := by
            rw [lookup_removeKey_ne (fun hc => ha hc.symm)]
            exact hP
          cases hloop : takeModulesLoop ml rest (removeKey el a) with
          | mk res el2 =>
            have hres := ih (removeKey el a) hmem2 hP2
            rw [hloop] at hres
            simp only at hres
            subst hres
            simp [takeModulesLoop, hl, hme, hloop]

theorem take_operator_modules_bad_mission (et : EquipTable) (id : String)
    (cl : List String) (eid : String) (e : EquipTableEquip) (mid : String)
    (hc : List.lookup id et.character_equip_list = some cl)
    (hmem : eid ∈ cl.drop 1)
    (he : List.lookup eid et.equip_list = some e)
    (hmid : mid ∈ e.mission_list)
    (hmm : List.lookup mid et.mission_list = none) :
    (et.take_operator_modules id).1 = none := by
  have hfail : e.into_operator_module et.mission_list = none := by
    rw [EquipTableEquip.into_operator_module]
    rw [recollect_maybe_eq_none_of_mem hmid (by rw [hmm]; rfl)]
    rfl
  cases hloop : takeModulesLoop et.mission_list (cl.drop 1) et.equip_list with
  | mk res el2 =>
    have hres := takeModulesLoop_fails et.mission_list hfail (cl.drop 1)
      et.equip_list hmem (Or.inr he)
    rw [hloop] at hres
    simp only at hres
    subst hres
    rw [List.drop_one] at hloop
    simp [EquipTable.take_operator_modules, hc, hloop]

/-! ### Operator assembly gates (C9, C4) -/

/-- Success of `into_operator` depends exactly on the entity gates — and in
particular not on the equipment table: the module step never rejects. -/
theorem into_operator_isSome_eq (c : CharacterTableEntry) (id : String)
    (bd : BuildingData) (st : SkillTable) (hb : HandbookInfoTable)
    (et : EquipTable) :
    (c.into_operator id bd st hb et).1.isSome =
      (!c.is_unobtainable && c.display_number.isSome &&
        c.profession.into_profession.isSome &&
        c.sub_profession.into_sub_profession.isSome &&
        c.position.into_position.isSome &&
        !c.phases.isEmpty &&
        (recollect_maybe c.skills fun s => s.into_operator_skill st).isSome &&
        (recollect_maybe c.talents
          CharacterTableTalent.into_operator_talent).isSome &&
        (hb.take_operator_file id).1.isSome) := by
  by_cases h1 : c.is_unobtainable = true
  · simp [CharacterTableEntry.into_operator, h1]
  · rw [Bool.not_eq_true] at h1
    cases h2 : c.display_number with
    | none => simp [CharacterTableEntry.into_operator, h1, h2]
    | some dn =>
    cases h3 : c.profession.into_profession with
    | none => simp [CharacterTableEntry.into_operator, h1, h2, h3]
    | some prof =>
    cases h4 : c.sub_profession.into_sub_profession with
    | none => simp [CharacterTableEntry.into_operator, h1, h2, h3, h4]
    | some sub =>
    cases h5 : c.position.into_position with
    | none => simp [CharacterTableEntry.into_operator, h1, h2, h3, h4, h5]
    | some pos =>
    cases h6 : c.phases with
    | nil => simp [CharacterTableEntry.into_operator, h1, h2, h3, h4, h5, h6]
    | cons ph pt =>
    cases h7 : recollect_maybe c.skills fun s => s.into_operator_skill st with
    | none => simp [CharacterTableEntry.into_operator, h1, h2, h3, h4, h5, h6, h7]
    | some skills =>
    cases h8 : recollect_maybe c.talents
        CharacterTableTalent.into_operator_talent with
    | none =>
      simp [CharacterTableEntry.into_operator, h1, h2, h3, h4, h5, h6, h7, h8]
    | some talents =>
    cases hmt : et.take_operator_modules id with
    | mk mo et2 =>
    cases hf : List.lookup id hb.handbook_dict with
    | none =>
      simp [CharacterTableEntry.into_operator, HandbookInfoTable.take_operator_file,
        h1, h2, h3, h4, h5, h6, h7, h8, hmt, hf]
    | some fe =>
      simp [CharacterTableEntry.into_operator, HandbookInfoTable.take_operator_file,
        h1, h2, h3, h4, h5, h6, h7, h8, hmt, hf]

/-- The modules of a produced operator are exactly the (defaulted-to-empty)
result of the equipment take: a failed take yields the empty module list and
never rejects the operator. -/
theorem into_operator_modules_getD (c : CharacterTableEntry) (id : String)
    (bd : BuildingData) (st : SkillTable) (hb : HandbookInfoTable)
    (et : EquipTable) :
    ∀ op, (c.into_operator id bd st hb et).1 = some op →
      op.modules = ((et.take_operator_modules id).1).getD [] := by
  intro op hop
  by_cases h1 : c.is_unobtainable = true
  · simp [CharacterTableEntry.into_operator, h1] at hop
  · rw [Bool.not_eq_true] at h1
    cases h2 : c.display_number with
    | none => simp [CharacterTableEntry.into_operator, h1, h2] at hop
    | some dn =>
    cases h3 : c.profession.into_profession with
    | none => simp [CharacterTableEntry.into_operator, h1, h2, h3] at hop
    | some prof =>
    cases h4 : c.sub_profession.into_sub_profession with
    | none => simp [CharacterTableEntry.into_operator, h1, h2, h3, h4] at hop
    | some sub =>
    cases h5 : c.position.into_position with
    | none => simp [CharacterTableEntry.into_operator, h1, h2, h3, h4, h5] at hop
    | some pos =>
    cases h6 : c.phases with
    | nil =>
      simp [CharacterTableEntry.into_operator, h1, h2, h3, h4, h5, h6] at hop
    | cons ph pt =>
    cases h7 : recollect_maybe c.skills fun s => s.into_operator_skill st with
    | none =>
      simp [CharacterTableEntry.into_operator, h1, h2, h3, h4, h5, h6, h7] at hop
    | some skills =>
    cases h8 : recollect_maybe c.talents
        CharacterTableTalent.into_operator_talent with
    | none =>
      simp [CharacterTableEntry.into_operator, h1, h2, h3, h4, h5, h6, h7,
        h8] at hop
    | some talents =>
    cases hmt : et.take_operator_modules id with
    | mk mo et2 =>
    cases hf : List.lookup id hb.handbook_dict with
    | none =>
      simp [CharacterTableEntry.into_operator, HandbookInfoTable.take_operator_file,
        h1, h2, h3, h4, h5, h6, h7, h8, hmt, hf] at hop
    | some fe =>
      simp only [CharacterTableEntry.into_operator,
        HandbookInfoTable.take_operator_file, h1, h2, h3, h4, h5, h6, h7, h8,
        hmt, hf, List.map_cons, Bool.false_eq_true, if_false,
        Option.map_some', Option.some.injEq] at hop
      rw [← hop]

/-- **C9**: a module referencing a mission id absent from the mission table
drops the entity's whole module list, while the entity itself is still
produced: (i) whether `into_operator` produces an operator never depends on
the equipment table; (ii) whenever the module take fails, a produced operator
carries the empty module list; (iii) a non-default equipment entry whose
mission id is absent from the mission table makes the take fail. -/
theorem module_failure_soft :
    (∀ (c : CharacterTableEntry) (id : String) (bd : BuildingData)
      (st : SkillTable) (hb : HandbookInfoTable) (et1 et2 : EquipTable),
      (c.into_operator id bd st hb et1).1.isSome =
        (c.into_operator id bd st hb et2).1.isSome) ∧
    (∀ (c : CharacterTableEntry) (id : String) (bd : BuildingData)
      (st : SkillTable) (hb : HandbookInfoTable) (et : EquipTable)
      (op : Operator),
      (et.take_operator_modules id).1 = none →
      (c.into_operator id bd st hb et).1 = some op →
      op.modules = []) ∧
    (∀ (et : EquipTable) (id : String) (cl : List String) (eid : String)
      (e : EquipTableEquip) (mid : String),
      List.lookup id et.character_equip_list = some cl →
      eid ∈ cl.drop 1 →
      List.lookup eid et.equip_list = some e →
      mid ∈ e.mission_list →
      List.lookup mid et.mission_list = none →
      (et.take_operator_modules id).1 = none) := by
  refine ⟨?_, ?_, take_operator_modules_bad_mission⟩
  · intro c id bd st hb et1 et2
    rw [into_operator_isSome_eq, into_operator_isSome_eq]
  · intro c id bd st hb et op htake hop
    rw [into_operator_modules_getD c id bd st hb et op hop, htake]
    rfl

/-- Witness for C9: the sample operator assembled against an equipment table
whose only module references a missing mission is still produced, with an
empty module list. -/
theorem module_failure_soft_witness :
    (badMissionEquipTable.take_operator_modules "op1").1 = none ∧
    ∃ op, (sampleChar.into_operator "op1" emptyBuildingData
        sevenLevelSkillTable op1Handbook badMissionEquipTable).1 = some op ∧
      op.modules = [] := by
  have htake : (badMissionEquipTable.take_operator_modules "op1").1 = none :=
    module_failure_soft.2.2 badMissionEquipTable "op1" ["d1", "m1"] "m1"
      (mkEquip "m1" ["missing"]) "missing" (by decide) (by decide) (by decide)
      (by decide) (by decide)
  refine ⟨htake, ?_⟩
  cases hop : (sampleChar.into_operator "op1" emptyBuildingData
      sevenLevelSkillTable op1Handbook badMissionEquipTable).1 with
  | none => exact absurd hop (by decide)
  | some op =>
    exact ⟨op, rfl, module_failure_soft.2.1 sampleChar "op1" emptyBuildingData
      sevenLevelSkillTable op1Handbook badMissionEquipTable op htake hop⟩

/-! ### Skill level requirements (C4) -/

theorem into_operator_skill_none_of_short {s : CharacterTableSkill}
    {sid : String} {st : SkillTable} {e : SkillTableEntry}
    (hid : s.id = some sid) (hl : List.lookup sid st = some e)
    (hlen : e.levels.length < 7) :
    s.into_operator_skill st = none := by
  cases hna : e.name_activation_recovery with
  | none =>
    simp [CharacterTableSkill.into_operator_skill, hid, hl, hna, Option.bind]
  | some nar =>
    obtain ⟨nm, act, rec⟩ := nar
    have hsplit : e.split_levels = none := by
      rw [SkillTableEntry.split_levels, if_pos hlen]
    simp [CharacterTableSkill.into_operator_skill, hid, hl, hna, hsplit,
      Option.bind]

/-- **C4 counterexample**: a skill-table entry with 8 levels (mastery data
beyond the 7 base levels, but not the required 3) does not drop the operator:
`into_operator` still produces it, with a skill whose mastery is absent — a
partial skill. -/
theorem skill_level_partial_mastery_cex :
    eightLevelEntry.levels.length = 8 ∧
    sampleCharSkill.mastery_upgrades.isSome = true ∧
    ((sampleChar.into_operator "op1" emptyBuildingData
        [("sk1", eightLevelEntry)] op1Handbook emptyEquipTable).1.map
      fun op => op.skills.map fun sk => sk.mastery.isSome) = some [false] := by
  refine ⟨by decide, by decide, by decide⟩

/-- **C4 (amended)**: a raw skill reference resolving to an entry with fewer
than 7 levels drops the whole operator (`into_operator` returns `None`); an
entry with at least 7 levels resolves, its first 7 levels forming the base
progression, and the levels beyond the 7th become the mastery data exactly
when there are 3 of them (10 levels in total) — otherwise they are discarded
and the skill is produced without mastery, keeping the operator. -/
theorem skill_level_requirements :
    (∀ (c : CharacterTableEntry) (id : String) (bd : BuildingData)
      (st : SkillTable) (hb : HandbookInfoTable) (et : EquipTable)
      (s : CharacterTableSkill) (sid : String) (e : SkillTableEntry),
      s ∈ c.skills → s.id = some sid → List.lookup sid st = some e →
      e.levels.length < 7 →
      (c.into_operator id bd st hb et).1 = none) ∧
    (∀ e : SkillTableEntry, 7 ≤ e.levels.length →
      e.split_levels = some (e.levels.take 7,
        if e.levels.length = 10 then some (e.levels.drop 7) else none)) := by
  constructor
  · intro c id bd st hb et s sid e hs hid hl hlen
    have hskill : s.into_operator_skill st = none :=
      into_operator_skill_none_of_short hid hl hlen
    have hrec : recollect_maybe c.skills (fun x => x.into_operator_skill st) =
        none := recollect_maybe_eq_none_of_mem hs hskill
    have hiso := into_operator_isSome_eq c id bd st hb et
    cases ho : (c.into_operator id bd st hb et).1 with
    | none => rfl
    | some op =>
      rw [ho] at hiso
      rw [hrec] at hiso
      simp at hiso
  · intro e hlen
    have hiff : ((e.levels.drop 7).length = 3) ↔ (e.levels.length = 10) := by
      rw [List.length_drop]
      omega
    rw [SkillTableEntry.split_levels, if_neg (by omega)]
    simp only [hiff]

/-- Witness for the amended C4: a 6-level entry drops the sample operator,
and the 8-level entry splits into 7 base levels with no mastery. -/
theorem skill_level_requirements_witness :
    (sampleChar.into_operator "op1" emptyBuildingData [("sk1", sixLevelEntry)]
      op1Handbook emptyEquipTable).1 = none ∧
    eightLevelEntry.split_levels = some (eightLevelEntry.levels.take 7,
      if eightLevelEntry.levels.length = 10 then
        some (eightLevelEntry.levels.drop 7) else none) :=
  ⟨skill_level_requirements.1 sampleChar "op1" emptyBuildingData
      [("sk1", sixLevelEntry)] op1Handbook emptyEquipTable sampleCharSkill
      "sk1" sixLevelEntry (by decide) (by decide) (by decide) (by decide),
   skill_level_requirements.2 eightLevelEntry (by decide)⟩

end AkData
